import Mathlib

/-!
Verification development for the Quizard MCP server
(`src/server.py`, `src/storage_url.py`, `src/content_reader.py`,
`src/pdf_utils.py`).

The Python code is shallowly embedded: pure string/number manipulation is
translated to executable Lean functions; the effectful boundary (credential
fetch, HTTP transport, cloud-storage download, PyPDF2 extraction) is made
explicit by passing the outcome of each external call as a parameter, and a
Python exception that escapes a function is modelled by an `Except`/`Option`
error value.  Machine reals (Python numbers) are modelled by `ℚ`; Python
lists and strings by `List`/`String`.
-/

namespace Quizard

/-! ### Helpers modelling Python string primitives

Lean's own `String.trim`, `String.replace`, … are implemented on byte
positions and do not reduce well inside the kernel, so the handful of Python
`str` methods the code uses are modelled directly on `List Char`. -/

/-- Model of Python `str.strip()` with no argument: remove leading and
trailing whitespace.  (Python strips the full Unicode whitespace class;
the claims only involve ASCII whitespace, covered by `Char.isWhitespace`.) -/
def pyStrip (s : String) : String :=
  String.mk (((s.data.dropWhile Char.isWhitespace).reverse.dropWhile Char.isWhitespace).reverse)

/-- Model of Python `s.replace('Z', '+00:00')` (all occurrences replaced,
left to right), as used on timestamps in `validate_quiz_parameters`.
The `Nat` argument is recursion fuel, instantiated with the list length. -/
def replaceZAux : Nat → List Char → List Char
  | _, [] => []
  | 0, l => l
  | fuel + 1, c :: rest =>
    if c == 'Z' then '+' :: '0' :: '0' :: ':' :: '0' :: '0' :: replaceZAux fuel rest
    else c :: replaceZAux fuel rest

/-- `start_at.replace('Z', '+00:00')` from `src/server.py` line 164. -/
def pyReplaceZ (s : String) : String :=
  String.mk (replaceZAux s.data.length s.data)

/-- Model of Python `str.upper()` (the strings involved are ASCII). -/
def pyUpper (s : String) : String := String.mk (s.data.map Char.toUpper)

/-- Model of Python `str.lower()` (the strings involved are ASCII). -/
def pyLower (s : String) : String := String.mk (s.data.map Char.toLower)

/-- Model of Python `s[:n]` (slicing a string to its first `n` characters). -/
def pySlice (s : String) (n : Nat) : String := String.mk (s.data.take n)

/-- Model of Python `s.endswith(suffix)`. -/
def pyEndsWith (s suffix : String) : Bool := suffix.data.isSuffixOf s.data

/-- Model of Python `s.startswith(p)`. -/
def pyStartsWith (s p : String) : Bool := p.data.isPrefixOf s.data

/-! ### Rendering the numbers interpolated into validation messages

Quiz marks and question points are Python numbers (`int` or `float`),
modelled here as rationals.  `ratRepr` models the `str(...)` rendering used
by the f-strings: an integral value renders like a Python `int`, a finite
decimal like the repr of the corresponding decimal value. -/

/-- Smallest exponent `k` with `d ∣ 10 ^ k`, when one exists below 40. -/
def pow10Exp (d : Nat) : Option Nat :=
  (List.range 40).find? (fun k => 10 ^ k % d == 0)

/-- Left-pad a digit string with zeros to length `k`. -/
def padZeros (k : Nat) (s : String) : String :=
  String.mk (List.replicate (k - s.length) '0') ++ s

/-- Model of Python `str()` on the numeric values interpolated into
validation messages (see `ratRepr`'s section comment). -/
def ratRepr (q : ℚ) : String :=
  if q.den = 1 then toString q.num
  else
    match pow10Exp q.den with
    | some k =>
      let sign := if q < 0 then "-" else ""
      let scaled := q.num.natAbs * 10 ^ k / q.den
      sign ++ toString (scaled / 10 ^ k) ++ "." ++ padZeros k (toString (scaled % 10 ^ k))
    | none => toString q.num ++ "/" ++ toString q.den

/-! ### The quiz validator (`validate_quiz_parameters`, `src/server.py` lines 138-203)

Each `errors.append(...)` site in the Python function is modelled by one
constructor of `VError`, carrying the values the f-string interpolates;
`render` recovers the exact Python message text. -/

/-- One element of the `errors` list built by `validate_quiz_parameters`. -/
inductive VError where
  /-- line 152: `"Title cannot be empty"` -/
  | titleEmpty
  /-- line 156: `"Total marks must be positive"` -/
  | totalMarksNotPositive
  /-- line 160: `"Duration must be positive"` -/
  | durationNotPositive
  /-- line 169: `f"Invalid date format: ..."` (`msg` is the `ValueError` text) -/
  | invalidDateFormat (msg : String)
  /-- line 167: `"Start time must be before end time"` -/
  | startNotBeforeEnd
  /-- line 173: `"At least one question is required"` -/
  | atLeastOneQuestion
  /-- line 178: `f"Question n: text is required"` (`n` is the 1-based index) -/
  | textRequired (n : Nat)
  /-- line 182: `f"Question n: at least 2 options required"` -/
  | atLeastTwoOptions (n : Nat)
  /-- line 186: `f"Question n: invalid correctOptionIndex"` -/
  | invalidCorrectOptionIndex (n : Nat)
  /-- line 190: `f"Question n: point must be positive"` -/
  | pointNotPositive (n : Nat)
  /-- line 194: the sum/totalMarks mismatch message, carrying both values -/
  | sumMismatch (totalPts totalMarks : ℚ)
  /-- line 198: `"At least one module_id is required"` -/
  | moduleIdRequired
deriving DecidableEq

/-- The exact Python message text of each appended error. -/
def render : VError → String
  | .titleEmpty => "Title cannot be empty"
  | .totalMarksNotPositive => "Total marks must be positive"
  | .durationNotPositive => "Duration must be positive"
  | .invalidDateFormat m => "Invalid date format: " ++ m
  | .startNotBeforeEnd => "Start time must be before end time"
  | .atLeastOneQuestion => "At least one question is required"
  | .textRequired n => "Question " ++ toString n ++ ": text is required"
  | .atLeastTwoOptions n => "Question " ++ toString n ++ ": at least 2 options required"
  | .invalidCorrectOptionIndex n => "Question " ++ toString n ++ ": invalid correctOptionIndex"
  | .pointNotPositive n => "Question " ++ toString n ++ ": point must be positive"
  | .sumMismatch tp tm =>
    "Sum of question points (" ++ ratRepr tp ++ ") doesn't match totalMarks (" ++ ratRepr tm ++ ")"
  | .moduleIdRequired => "At least one module_id is required"

/-! #### ISO timestamps

`validate_quiz_parameters` parses `start_at`/`end_at` with
`datetime.fromisoformat` after replacing `'Z'` by `'+00:00'`, and compares
the two datetimes.  The parser below models `fromisoformat`'s strict
`YYYY-MM-DD[<sep>HH:MM:SS[±HH:MM]]` grammar (the shape the tool contract
uses); the calendar arithmetic (`toOrdinal`, leap years) follows the
`datetime` module so that comparison of offset-aware datetimes is exact. -/

/-- A parsed `datetime`; `utcOffsetMinutes = none` models a naive datetime. -/
structure PyDateTime where
  year : Nat
  month : Nat
  day : Nat
  hour : Nat
  minute : Nat
  second : Nat
  utcOffsetMinutes : Option Int
deriving DecidableEq

/-- Gregorian leap year, as in the Python `datetime` module. -/
def isLeapYear (y : Nat) : Bool := (y % 4 == 0 && y % 100 != 0) || y % 400 == 0

/-- Length of month `m` of year `y`. -/
def daysInMonth (y m : Nat) : Nat :=
  if m = 2 then (if isLeapYear y then 29 else 28)
  else if m = 4 ∨ m = 6 ∨ m = 9 ∨ m = 11 then 30 else 31

/-- Days in all years before year `y` (proleptic Gregorian). -/
def daysBeforeYear (y : Nat) : Nat :=
  (y - 1) * 365 + (y - 1) / 4 - (y - 1) / 100 + (y - 1) / 400

/-- Days in the months of year `y` strictly before month `m`. -/
def daysBeforeMonth (y m : Nat) : Nat :=
  ((List.range (m - 1)).map (fun i => daysInMonth y (i + 1))).sum

/-- `date.toordinal()`: day number of `y-m-d` counting 0001-01-01 as 1. -/
def toOrdinal (y m d : Nat) : Nat := daysBeforeYear y + daysBeforeMonth y m + d

/-- Value of a decimal digit character. -/
def digitVal (c : Char) : Option Nat :=
  if c.isDigit then some (c.toNat - 48) else none

/-- Parse the time-of-day tail of an isoformat string: `HH:MM:SS` with an
optional `±HH:MM` offset.  Returns `(hour, minute, second, offset)`. -/
def parseTimePart : List Char → Option (Nat × Nat × Nat × Option Int)
  | [h1, h2, ':', m1, m2, ':', s1, s2] => do
    let a ← digitVal h1; let b ← digitVal h2
    let c ← digitVal m1; let d ← digitVal m2
    let e ← digitVal s1; let f ← digitVal s2
    pure (a * 10 + b, c * 10 + d, e * 10 + f, none)
  | [h1, h2, ':', m1, m2, ':', s1, s2, sc, o1, o2, ':', o3, o4] => do
    let a ← digitVal h1; let b ← digitVal h2
    let c ← digitVal m1; let d ← digitVal m2
    let e ← digitVal s1; let f ← digitVal s2
    let g ← digitVal o1; let h ← digitVal o2
    let i ← digitVal o3; let j ← digitVal o4
    let sign : Int ← if sc = '+' then some 1 else if sc = '-' then some (-1) else none
    pure (a * 10 + b, c * 10 + d, e * 10 + f,
      some (sign * ((g * 10 + h) * 60 + (i * 10 + j) : Nat)))
  | _ => none

/-- Model of `datetime.fromisoformat`.  A `.error` value models the raised
`ValueError`, whose `str()` becomes part of the validation message (the
repr quoting CPython puts around the offending string is omitted here; no
claim inspects these message texts). -/
def fromisoformat (s : String) : Except String PyDateTime :=
  let formatErr : Except String PyDateTime :=
    Except.error ("Invalid isoformat string: " ++ s)
  match s.data with
  | y1 :: y2 :: y3 :: y4 :: '-' :: m1 :: m2 :: '-' :: d1 :: d2 :: rest =>
    match digitVal y1, digitVal y2, digitVal y3, digitVal y4,
          digitVal m1, digitVal m2, digitVal d1, digitVal d2 with
    | some a, some b, some c, some d, some e, some f, some g, some h =>
      let y := ((a * 10 + b) * 10 + c) * 10 + d
      let mo := e * 10 + f
      let dy := g * 10 + h
      let time? : Option (Nat × Nat × Nat × Option Int) :=
        match rest with
        | [] => some (0, 0, 0, none)
        | _sep :: t => parseTimePart t
      match time? with
      | none => formatErr
      | some (hh, mi, ss, off) =>
        if y = 0 then Except.error "year 0 is out of range"
        else if ¬ (1 ≤ mo ∧ mo ≤ 12) then Except.error "month must be in 1..12"
        else if ¬ (1 ≤ dy ∧ dy ≤ daysInMonth y mo) then
          Except.error "day is out of range for month"
        else if ¬ (hh ≤ 23) then Except.error "hour must be in 0..23"
        else if ¬ (mi ≤ 59) then Except.error "minute must be in 0..59"
        else if ¬ (ss ≤ 59) then Except.error "second must be in 0..59"
        else
          match off with
          | some o =>
            if 1440 ≤ o.natAbs then Except.error "offset must be a timedelta strictly between -timedelta(hours=24) and timedelta(hours=24)"
            else Except.ok ⟨y, mo, dy, hh, mi, ss, off⟩
          | none => Except.ok ⟨y, mo, dy, hh, mi, ss, none⟩
    | _, _, _, _, _, _, _, _ => formatErr
  | _ => formatErr

/-- Key for comparing two naive datetimes (field-by-field, as Python
compares the `(year, …, second)` tuples); strictly monotone because every
factor bounds its field. -/
def naiveKey (t : PyDateTime) : Nat :=
  ((((t.year * 13 + t.month) * 32 + t.day) * 24 + t.hour) * 60 + t.minute) * 60 + t.second

/-- Seconds since the proleptic epoch of an aware datetime with offset
`off` minutes (Python compares aware datetimes by UTC instant). -/
def instantSeconds (t : PyDateTime) (off : Int) : Int :=
  (((toOrdinal t.year t.month t.day : Int) * 1440 + t.hour * 60 + t.minute) - off) * 60
    + t.second

/-- Python `start >= end` on two datetimes.  Comparing a naive with an
aware datetime raises `TypeError` in Python, modelled as `none`. -/
def pyDatetimeGE (a b : PyDateTime) : Option Bool :=
  match a.utcOffsetMinutes, b.utcOffsetMinutes with
  | none, none => some (naiveKey b ≤ naiveKey a)
  | some x, some y => some (instantSeconds b y ≤ instantSeconds a x)
  | _, _ => none

/-- The date-validation block of `validate_quiz_parameters`
(`src/server.py` lines 162-169): parse `start_at` then `end_at` (the
first `ValueError` is caught and reported, so a bad `start_at`
short-circuits), then flag `start >= end`.  A `TypeError` from comparing a
naive with an aware datetime is not caught by the `except ValueError`
handler and escapes the whole function, modelled as `none`. -/
def dateErrors (start_at end_at : String) : Option (List VError) :=
  match fromisoformat (pyReplaceZ start_at) with
  | .error e => some [.invalidDateFormat e]
  | .ok s =>
    match fromisoformat (pyReplaceZ end_at) with
    | .error e => some [.invalidDateFormat e]
    | .ok e =>
      match pyDatetimeGE s e with
      | none => none
      | some b => some (if b then [.startNotBeforeEnd] else [])

/-! #### Questions -/

/-- One entry of the `questions` list.  The Python code reads the dict
keys with defaults: `q.get("text", "")`, `q.get("options", [])`,
`q.get("correctOptionIndex")` (checked with `isinstance(·, int)`, so
`none` models both a missing key and a non-integer value) and
`q.get("point", 1)` (`none` models a missing key, defaulted to 1). -/
structure Question where
  text : String
  options : List String
  correctOptionIndex : Option Int
  point : Option ℚ
deriving DecidableEq

/-- `q.get("point", 1)`. -/
def questionPoint (q : Question) : ℚ := q.point.getD 1

/-- The running `total_points` accumulator: `src/server.py` line 191 adds
every question's point unconditionally (there is no `else` on the
positivity check). -/
def totalPoints (qs : List Question) : ℚ := (qs.map questionPoint).sum

/-- `not isinstance(correct_idx, int) or correct_idx < 0 or correct_idx >= len(options)`. -/
def correctIdxInvalid (q : Question) : Bool :=
  match q.correctOptionIndex with
  | none => true
  | some i => decide (i < 0 ∨ (q.options.length : Int) ≤ i)

/-- The errors one loop iteration appends for question `q` at 0-based
index `idx` (`src/server.py` lines 176-191), in source order. -/
def questionErrors (idx : Nat) (q : Question) : List VError :=
  (if pyStrip q.text = "" then [.textRequired (idx + 1)] else []) ++
  (if q.options.length < 2 then [.atLeastTwoOptions (idx + 1)] else []) ++
  (if correctIdxInvalid q then [.invalidCorrectOptionIndex (idx + 1)] else []) ++
  (if questionPoint q ≤ 0 then [.pointNotPositive (idx + 1)] else [])

/-- The whole `for idx, q in enumerate(questions)` loop, starting at
0-based index `idx`. -/
def perQuestionErrors : Nat → List Question → List VError
  | _, [] => []
  | idx, q :: rest => questionErrors idx q ++ perQuestionErrors (idx + 1) rest

/-- The `questions` block (`src/server.py` lines 172-194): an empty list
short-circuits the loop; otherwise run the loop and then compare the
accumulated `total_points` with `total_marks` under the 0.01 tolerance. -/
def questionsErrors (questions : List Question) (total_marks : ℚ) : List VError :=
  if questions = [] then [.atLeastOneQuestion]
  else
    perQuestionErrors 0 questions ++
    (if |totalPoints questions - total_marks| > 1 / 100 then
      [.sumMismatch (totalPoints questions) total_marks]
    else [])

/-- The dict `{"valid": ..., "errors": ...}` returned by
`validate_quiz_parameters` (these are its only keys; the function computes
no warnings). -/
structure ValidationResult where
  valid : Bool
  errors : List VError
deriving DecidableEq

/-- The full `errors` list accumulated by `validate_quiz_parameters`, in
source order (title, marks, duration, dates, questions, module ids), with
`dErrs` the outcome of the date block. -/
def validateErrorList (title : String) (total_marks : ℚ) (duration_minutes : Int)
    (dErrs : List VError) (questions : List Question) (module_ids : List String) :
    List VError :=
  (if pyStrip title = "" then [VError.titleEmpty] else []) ++
  (if total_marks ≤ 0 then [VError.totalMarksNotPositive] else []) ++
  (if duration_minutes ≤ 0 then [VError.durationNotPositive] else []) ++
  dErrs ++
  questionsErrors questions total_marks ++
  (if module_ids = [] then [VError.moduleIdRequired] else [])

/-- `validate_quiz_parameters` (`src/server.py` lines 138-203).  All
errors are collected; `valid` is `len(errors) == 0`.  `none` models the
uncaught `TypeError` raised when the two parsed datetimes mix naive and
aware (see `dateErrors`). -/
def validate_quiz_parameters (title : String) (total_marks : ℚ)
    (duration_minutes : Int) (start_at end_at : String)
    (questions : List Question) (module_ids : List String) :
    Option ValidationResult :=
  match dateErrors start_at end_at with
  | none => none
  | some dErrs =>
    let errors := validateErrorList title total_marks duration_minutes dErrs
      questions module_ids
    some ⟨errors.isEmpty, errors⟩

/-- Whether an error is the points/totalMarks mismatch error. -/
def isSumMismatch : VError → Bool
  | .sumMismatch _ _ => true
  | _ => false

/-! ### The request orchestrator (`make_authenticated_request`, `src/server.py` lines 83-136)

The external collaborators are passed in as data:
* `TokenFetch` is the outcome of `get_service_token()` (line 96) — note
  this call stands *before* the `try`, so a raised credential exception
  escapes `make_authenticated_request`;
* `HttpAttempt` is the outcome of the `requests.get/post/put/delete`
  call: either a received `Response` (status, `.text`, and the `str()` of
  the `HTTPError` that `raise_for_status()` would raise for it), or a
  raised `requests.exceptions.RequestException` carrying `str(e)` and the
  optional attached response `(status_code, text)`.

`raise_for_status()` raises exactly for statuses 400-599; the raised
`HTTPError` is a `RequestException`, so it is caught by the handler and
turned into the JSON failure envelope of lines 130-136.  A 2xx — or any
other status below 400, such as 304 — returns `response.text`. -/

/-- Outcome of `get_service_token()`. -/
inductive TokenFetch where
  | ok (token : String)
  | raises (msg : String)
deriving DecidableEq

/-- Outcome of the underlying `requests` call (see section comment). -/
inductive HttpAttempt where
  | response (status : Nat) (body : String) (excStr : String)
  | requestException (msg : String) (resp : Option (Nat × String))
deriving DecidableEq

/-- A Python exception escaping `make_authenticated_request`. -/
inductive PyRaise where
  | credentialError (msg : String)
  | valueError (msg : String)
deriving DecidableEq

/-- The JSON failure envelope built at `src/server.py` lines 130-136. -/
structure ErrorEnvelope where
  success : Bool
  error_code : String
  status : Option Nat
  message : String
  details : String
deriving DecidableEq

/-- What `make_authenticated_request` returns: `response.text` on the
success path, or the serialized failure envelope. -/
inductive BackendResult where
  | text (s : String)
  | envelope (e : ErrorEnvelope)
deriving DecidableEq

/-- Lines 130-136: `status`/`body` come from `getattr(e.response, ...)`;
`details` is `body[:1000] if body else str(e)`. -/
def mkFailureEnvelope (status : Option Nat) (body : String) (excStr : String) :
    ErrorEnvelope :=
  ⟨false, "BACKEND_REQUEST_FAILED", status, "Request to classroom service failed.",
    if body ≠ "" then pySlice body 1000 else excStr⟩

/-- `make_authenticated_request(endpoint, method, session_id, data)`
(`src/server.py` lines 83-136), with the two external outcomes passed in.
An unsupported method raises `ValueError` (line 114), which the
`except requests.exceptions.RequestException` handler does not catch. -/
def make_authenticated_request (endpoint method session_id : String)
    (data : Option String) (tokenFetch : TokenFetch) (http : HttpAttempt) :
    Except PyRaise BackendResult :=
  match endpoint, session_id, data, tokenFetch with
  | _, _, _, .raises m => .error (.credentialError m)
  | _, _, _, .ok _token =>
    if pyUpper method = "GET" ∨ pyUpper method = "POST" ∨ pyUpper method = "PUT"
        ∨ pyUpper method = "DELETE" then
      match http with
      | .response status body excStr =>
        if 400 ≤ status ∧ status < 600 then
          .ok (.envelope (mkFailureEnvelope (some status) body excStr))
        else .ok (.text body)
      | .requestException msg resp =>
        match resp with
        | some (st, body) => .ok (.envelope (mkFailureEnvelope (some st) body msg))
        | none => .ok (.envelope (mkFailureEnvelope none "" msg))
    else .error (.valueError ("Unsupported HTTP method: " ++ method))

/-! ### The quiz tools (`generate_quiz` lines 533-643, `apply_quiz_revisions` lines 646-729)

Both tools first run `validate_quiz_parameters`; on failure they return
the JSON object `{"success": False, "error": "Validation failed",
"details": validation["errors"]}` *without* touching the network, and only
on success do they build the `quiz_details` payload and call
`make_authenticated_request`.  The outbound call is reified as the
`callBackend` constructor so that "no backend call happened" is visible in
the result. -/

/-- The `quiz_details` payload built on the success path. -/
structure QuizDetails where
  title : String
  description : String
  totalMarks : ℚ
  durationMinutes : Int
  startAt : String
  endAt : String
  questions : List Question
  module_ids : List String
deriving DecidableEq

/-- The early-return JSON object of lines 622-626 / 708-711. -/
structure FailureResponse where
  success : Bool
  error : String
  details : List VError
deriving DecidableEq

/-- Observable outcome of a quiz tool: either the validation-failure
response, or the authenticated backend request it proceeds to make. -/
inductive ToolOutcome where
  | respond (r : FailureResponse)
  | callBackend (endpoint method session_id : String) (payload : QuizDetails)
deriving DecidableEq

/-- `generate_quiz` (`src/server.py` lines 533-643), up to the outbound
call.  `none` propagates the uncaught datetime `TypeError` from
validation. -/
def generate_quiz (title : String) (total_marks : ℚ) (duration_minutes : Int)
    (start_at end_at : String) (questions : List Question)
    (module_ids : List String) (session_id description : String) :
    Option ToolOutcome :=
  match validate_quiz_parameters title total_marks duration_minutes
      start_at end_at questions module_ids with
  | none => none
  | some v =>
    if v.valid then
      some (.callBackend "/api/v1/quizzes/from-details" "POST" session_id
        ⟨pyStrip title, pyStrip description, total_marks, duration_minutes,
          start_at, end_at, questions, module_ids⟩)
    else some (.respond ⟨false, "Validation failed", v.errors⟩)

/-- `apply_quiz_revisions` (`src/server.py` lines 646-729): identical
validation gate, `PUT` to the id-suffixed endpoint on success. -/
def apply_quiz_revisions (quiz_id title : String) (total_marks : ℚ)
    (duration_minutes : Int) (start_at end_at : String)
    (questions : List Question) (module_ids : List String)
    (session_id description : String) : Option ToolOutcome :=
  match validate_quiz_parameters title total_marks duration_minutes
      start_at end_at questions module_ids with
  | none => none
  | some v =>
    if v.valid then
      some (.callBackend ("/api/v1/quizzes/from-details/" ++ quiz_id) "PUT" session_id
        ⟨pyStrip title, pyStrip description, total_marks, duration_minutes,
          start_at, end_at, questions, module_ids⟩)
    else some (.respond ⟨false, "Validation failed", v.errors⟩)

/-! ### UTF-8 decoding (for `urllib.parse.unquote` and `bytes.decode`)

Bytes are modelled as `List Nat` (each entry < 256).  `utf8DecodeStrict`
models `bytes.decode("utf-8")` — `none` for the raised
`UnicodeDecodeError` — enforcing the usual well-formedness conditions (no
overlong forms, no surrogates, max U+10FFFF), exactly the sequences CPython
accepts.  `utf8DecodeReplace` models `errors="replace"`: it is total,
emitting U+FFFD at each undecodable position and resynchronising on the
next byte.  (CPython may merge or split consecutive replacement characters
slightly differently; the claims depend only on totality and on the
single-invalid-byte case, where the two agree.)  The `Nat` fuel arguments
are instantiated with the list length; each step consumes at least one
byte, so the fuel never runs out. -/

/-- A UTF-8 continuation byte. -/
def isCont (c : Nat) : Bool := decide (0x80 ≤ c ∧ c ≤ 0xBF)

/-- Valid first continuation byte after 3-byte leader `b` (excludes
overlong forms after 0xE0 and surrogates after 0xED). -/
def cont3Ok (b c1 : Nat) : Bool :=
  isCont c1 && decide ((b = 0xE0 → 0xA0 ≤ c1) ∧ (b = 0xED → c1 ≤ 0x9F))

/-- Valid first continuation byte after 4-byte leader `b` (excludes
overlong forms after 0xF0 and values above U+10FFFF after 0xF4). -/
def cont4Ok (b c1 : Nat) : Bool :=
  isCont c1 && decide ((b = 0xF0 → 0x90 ≤ c1) ∧ (b = 0xF4 → c1 ≤ 0x8F))

/-- Strict UTF-8 decoding; `none` models `UnicodeDecodeError`. -/
def utf8DecodeStrictAux : Nat → List Nat → Option (List Char)
  | _, [] => some []
  | 0, _ => none
  | fuel + 1, b :: rest =>
    if b < 0x80 then (utf8DecodeStrictAux fuel rest).map (Char.ofNat b :: ·)
    else if 0xC2 ≤ b ∧ b ≤ 0xDF then
      match rest with
      | c1 :: rest2 =>
        if isCont c1 then
          (utf8DecodeStrictAux fuel rest2).map
            (Char.ofNat ((b - 0xC0) * 64 + (c1 - 0x80)) :: ·)
        else none
      | [] => none
    else if 0xE0 ≤ b ∧ b ≤ 0xEF then
      match rest with
      | c1 :: c2 :: rest2 =>
        if cont3Ok b c1 && isCont c2 then
          (utf8DecodeStrictAux fuel rest2).map
            (Char.ofNat (((b - 0xE0) * 64 + (c1 - 0x80)) * 64 + (c2 - 0x80)) :: ·)
        else none
      | _ => none
    else if 0xF0 ≤ b ∧ b ≤ 0xF4 then
      match rest with
      | c1 :: c2 :: c3 :: rest2 =>
        if cont4Ok b c1 && isCont c2 && isCont c3 then
          (utf8DecodeStrictAux fuel rest2).map
            (Char.ofNat ((((b - 0xF0) * 64 + (c1 - 0x80)) * 64 + (c2 - 0x80)) * 64
              + (c3 - 0x80)) :: ·)
        else none
      | _ => none
    else none

/-- `bytes.decode("utf-8")`. -/
def utf8DecodeStrict (data : List Nat) : Option String :=
  (utf8DecodeStrictAux data.length data).map String.mk

/-- Total decoding with U+FFFD substitution, `bytes.decode("utf-8", errors="replace")`. -/
def utf8DecodeReplaceAux : Nat → List Nat → List Char
  | _, [] => []
  | 0, _ => []
  | fuel + 1, b :: rest =>
    if b < 0x80 then Char.ofNat b :: utf8DecodeReplaceAux fuel rest
    else if 0xC2 ≤ b ∧ b ≤ 0xDF then
      match rest with
      | c1 :: rest2 =>
        if isCont c1 then
          Char.ofNat ((b - 0xC0) * 64 + (c1 - 0x80)) :: utf8DecodeReplaceAux fuel rest2
        else Char.ofNat 0xFFFD :: utf8DecodeReplaceAux fuel rest
      | [] => [Char.ofNat 0xFFFD]
    else if 0xE0 ≤ b ∧ b ≤ 0xEF then
      match rest with
      | c1 :: c2 :: rest2 =>
        if cont3Ok b c1 && isCont c2 then
          Char.ofNat (((b - 0xE0) * 64 + (c1 - 0x80)) * 64 + (c2 - 0x80)) ::
            utf8DecodeReplaceAux fuel rest2
        else Char.ofNat 0xFFFD :: utf8DecodeReplaceAux fuel rest
      | _ => [Char.ofNat 0xFFFD]
    else if 0xF0 ≤ b ∧ b ≤ 0xF4 then
      match rest with
      | c1 :: c2 :: c3 :: rest2 =>
        if cont4Ok b c1 && isCont c2 && isCont c3 then
          Char.ofNat ((((b - 0xF0) * 64 + (c1 - 0x80)) * 64 + (c2 - 0x80)) * 64
            + (c3 - 0x80)) :: utf8DecodeReplaceAux fuel rest2
        else Char.ofNat 0xFFFD :: utf8DecodeReplaceAux fuel rest
      | _ => [Char.ofNat 0xFFFD]
    else Char.ofNat 0xFFFD :: utf8DecodeReplaceAux fuel rest

/-- `bytes.decode("utf-8", errors="replace")`: total. -/
def utf8DecodeReplace (data : List Nat) : String :=
  String.mk (utf8DecodeReplaceAux data.length data)

/-! ### `urllib.parse.unquote` -/

/-- Value of a hexadecimal digit character. -/
def hexDigitVal (c : Char) : Option Nat :=
  if c.isDigit then some (c.toNat - 48)
  else if 'A' ≤ c ∧ c ≤ 'F' then some (c.toNat - 55)
  else if 'a' ≤ c ∧ c ≤ 'f' then some (c.toNat - 87)
  else none

/-- Collect the byte run of consecutive `%XX` escapes at the head of the
list, returning the bytes and the remainder. -/
def percentRun : List Char → List Nat × List Char
  | '%' :: h1 :: h2 :: rest =>
    match hexDigitVal h1, hexDigitVal h2 with
    | some a, some b =>
      let p := percentRun rest
      ((a * 16 + b) :: p.1, p.2)
    | _, _ => ([], '%' :: h1 :: h2 :: rest)
  | l => ([], l)

/-- Scanner for `unquote`: each maximal run of `%XX` escapes is decoded as
one UTF-8 byte sequence with `errors="replace"` (CPython decodes escape
runs this way); a `%` not followed by two hex digits stays literal;
other characters pass through. -/
def unquoteAux : Nat → List Char → List Char
  | _, [] => []
  | 0, l => l
  | fuel + 1, '%' :: h1 :: h2 :: rest =>
    match hexDigitVal h1, hexDigitVal h2 with
    | some _, some _ =>
      let p := percentRun ('%' :: h1 :: h2 :: rest)
      utf8DecodeReplaceAux p.1.length p.1 ++ unquoteAux fuel p.2
    | _, _ => '%' :: unquoteAux fuel (h1 :: h2 :: rest)
  | fuel + 1, c :: rest => c :: unquoteAux fuel rest

/-- `urllib.parse.unquote` with its default UTF-8/replace decoding. -/
def unquote (s : String) : String :=
  String.mk (unquoteAux s.data.length s.data)

/-! ### `urllib.parse.urlsplit`

Model of CPython's `urlsplit` on the parts `parse_storage_url` consumes.
Following CPython: the URL is first stripped of leading/trailing C0
controls and spaces and cleansed of tab/CR/LF; the scheme is the text
before the first `:` when it is a nonempty run of scheme characters
starting with an ASCII letter (lower-cased); after `//` the netloc runs to
the first of `/`, `?`, `#`; an unbalanced `[`/`]` in the netloc raises
`ValueError("Invalid IPv6 URL")` (balanced brackets — IPv6 hosts — are
accepted here as in CPython ≤ 3.10 and are outside every claim's URL
shapes); then the fragment is split at the first `#` and the query at the
first `?`.  The non-ASCII NFKC netloc check is not modelled; the theorems
about bucket names restrict them to printable ASCII, where CPython skips
that check. -/

/-- The record returned by `urlsplit` (scheme, netloc, path, query, fragment). -/
structure UrlSplitResult where
  scheme : String
  netloc : String
  path : String
  query : String
  fragment : String
deriving DecidableEq

/-- A C0 control or the space character (stripped at both ends). -/
def isC0OrSpace (c : Char) : Bool := decide (c.toNat ≤ 32)

/-- Strip C0 controls and spaces from both ends. -/
def stripC0 (l : List Char) : List Char :=
  ((l.dropWhile isC0OrSpace).reverse.dropWhile isC0OrSpace).reverse

/-- Remove every tab, CR and LF (CPython's unsafe-byte removal). -/
def removeControlBytes (l : List Char) : List Char :=
  l.filter (fun c => c != '\t' && c != '\r' && c != '\n')

/-- A character allowed in a scheme. -/
def schemeChar (c : Char) : Bool := c.isAlpha || c.isDigit || c == '+' || c == '-' || c == '.'

/-- Split off the scheme: `(scheme, rest-after-colon)` when the text before
the first `:` qualifies, else `([], whole input)`. -/
def extractScheme (l : List Char) : List Char × List Char :=
  match l.dropWhile (fun c => c != ':') with
  | ':' :: rest =>
    match l.takeWhile (fun c => c != ':') with
    | [] => ([], l)
    | c :: pre =>
      if c.isAlpha && (c :: pre).all schemeChar then ((c :: pre).map Char.toLower, rest)
      else ([], l)
  | _ => ([], l)

/-- Not one of the three characters that end a netloc. -/
def notNetlocDelim (c : Char) : Bool := c != '/' && c != '?' && c != '#'

/-- After a leading `//`, split off the netloc; otherwise the netloc is empty. -/
def extractNetloc : List Char → List Char × List Char
  | '/' :: '/' :: rest => (rest.takeWhile notNetlocDelim, rest.dropWhile notNetlocDelim)
  | l => ([], l)

/-- `url.split(ch, 1)` when `ch` occurs, else `(url, "")`. -/
def splitOnFirstChar (ch : Char) (l : List Char) : List Char × List Char :=
  if ch ∈ l then (l.takeWhile (fun c => c != ch), (l.dropWhile (fun c => c != ch)).drop 1)
  else (l, [])

/-- `urlsplit` on the character list of the URL. -/
def urlsplitCore (l0 : List Char) : Except String UrlSplitResult :=
  let l := removeControlBytes (stripC0 l0)
  let sp := extractScheme l
  let nl := extractNetloc sp.2
  if ('[' ∈ nl.1 ∧ ']' ∉ nl.1) ∨ (']' ∈ nl.1 ∧ '[' ∉ nl.1) then
    .error "Invalid IPv6 URL"
  else
    let fr := splitOnFirstChar '#' nl.2
    let qu := splitOnFirstChar '?' fr.1
    .ok ⟨String.mk sp.1, String.mk nl.1, String.mk qu.1, String.mk qu.2, String.mk fr.2⟩

/-- `urllib.parse.urlsplit`; `.error` models the raised `ValueError`. -/
def urlsplit (url : String) : Except String UrlSplitResult :=
  urlsplitCore url.data

/-! ### `parse_storage_url` (`src/storage_url.py`) -/

/-- Python `"x/y/z".split("/")` on characters (total: `"" ↦ [""]`). -/
def splitSlash : List Char → List (List Char)
  | [] => [[]]
  | c :: rest =>
    if c = '/' then [] :: splitSlash rest
    else
      match splitSlash rest with
      | [] => [[c]]
      | h :: t => (c :: h) :: t

/-- Python `"/".join(parts)` on characters. -/
def joinSlash : List (List Char) → List Char
  | [] => []
  | [x] => x
  | x :: xs => x ++ '/' :: joinSlash xs

/-- `path.lstrip("/")`: drop every leading slash. -/
def lstripSlash (l : List Char) : List Char := l.dropWhile (fun c => c == '/')

/-- `parts = path.split("/") if path else []` applied to the
slash-stripped path of a split URL (`src/storage_url.py` lines 10-11). -/
def pathPartsOf (u : UrlSplitResult) : List (List Char) :=
  let path := lstripSlash u.path.data
  if path = [] then [] else splitSlash path

/-- The firebasestorage branch condition and extraction
(`src/storage_url.py` lines 21-25): `len(p) >= 5 and p[0] == "v0" and
p[1] == "b" and p[3] == "o"`, yielding `(p[2], "/".join(p[4:]))`. -/
def firebaseMatch : List (List Char) → Option (List Char × List Char)
  | p0 :: p1 :: p2 :: p3 :: rest =>
    if !rest.isEmpty && p0 == "v0".data && p1 == "b".data && p3 == "o".data then
      some (p2, joinSlash rest)
    else none
  | _ => none

/-- `parse_storage_url` (`src/storage_url.py` lines 3-26).  `.ok none`
models the Python return `(None, None)`; `.ok (some (bucket, key))`
models `(bucket, key)`; `.error` models a `ValueError` propagating out of
`urlsplit`. -/
def parse_storage_url (file_url : String) : Except String (Option (String × String)) :=
  match urlsplit file_url with
  | .error e => .error e
  | .ok u =>
    if u.scheme = "gs" then
      .ok (some (u.netloc, String.mk (lstripSlash u.path.data)))
    else
      let host := u.netloc
      let parts := pathPartsOf u
      if host = "storage.googleapis.com" ∧ 2 ≤ parts.length then
        .ok (some (String.mk (parts.headD []), String.mk (joinSlash (parts.drop 1))))
      else if host = "storage.cloud.google.com" ∧ 2 ≤ parts.length then
        .ok (some (String.mk (parts.headD []), String.mk (joinSlash (parts.drop 1))))
      else if host = "firebasestorage.googleapis.com" then
        match firebaseMatch parts with
        | some pr => .ok (some (String.mk pr.1, unquote (String.mk pr.2)))
        | none => .ok none
      else .ok none

/-! ### The content materializer (`src/content_reader.py`)

The effectful collaborators are passed in as data: `storageBytes` is the
payload returned by `blob.download_as_bytes()`, `httpResp` the response of
`requests.get(file_url, timeout=30)`, and `extract_pdf_text` the behaviour
of the PyPDF2-backed extractor of `src/pdf_utils.py` (external library
code; `.error` models a raised exception).  The two decode `try/except`
blocks of lines 23-26 / 39-42 become `decodeOrReplace`. -/

/-- `_is_pdf_bytes` (`src/content_reader.py` lines 6-7): at least four
bytes, starting with the `%PDF` signature. -/
def _is_pdf_bytes (b : List Nat) : Bool :=
  decide (4 ≤ b.length) && b.take 4 == [0x25, 0x50, 0x44, 0x46]

/-- `try: data.decode("utf-8") except: data.decode("utf-8", errors="replace")`. -/
def decodeOrReplace (data : List Nat) : String :=
  match utf8DecodeStrict data with
  | some s => s
  | none => utf8DecodeReplace data

/-- The `requests.get` response on the generic-HTTP path: final status,
body bytes, and the `Content-Type` header (`headers.get(..., "")`). -/
structure HttpGetResponse where
  status : Nat
  content : List Nat
  contentType : String
deriving DecidableEq

/-- The storage branch of `read_content_file_from_URL`
(`src/content_reader.py` lines 12-26), after the bytes have been
downloaded: route to PDF extraction when the bytes carry the `%PDF`
signature or the URL ends in `.pdf`; a raised or empty extraction falls
through to the decode step.  Inlined in the source; named here so the
fall-through is visible. -/
def readStorageBranch (file_url : String) (data : List Nat)
    (extract_pdf_text : List Nat → Except String String) : String :=
  if _is_pdf_bytes data || pyEndsWith (pyLower file_url) ".pdf" then
    match extract_pdf_text data with
    | .ok text => if text ≠ "" then text else decodeOrReplace data
    | .error _ => decodeOrReplace data
  else decodeOrReplace data

/-- The generic-HTTP branch (`src/content_reader.py` lines 28-42):
`raise_for_status()` raises for 400-599 (uncaught — modelled as
`.error`); otherwise the PDF routing adds the `Content-Type` check. -/
def readHttpBranch (file_url : String) (resp : HttpGetResponse)
    (extract_pdf_text : List Nat → Except String String) : Except String String :=
  if 400 ≤ resp.status ∧ resp.status < 600 then .error "HTTPError"
  else
    let content := resp.content
    if pyStartsWith (pyLower resp.contentType) "application/pdf"
        || pyEndsWith (pyLower file_url) ".pdf" || _is_pdf_bytes content then
      match extract_pdf_text content with
      | .ok text => .ok (if text ≠ "" then text else decodeOrReplace content)
      | .error _ => .ok (decodeOrReplace content)
    else .ok (decodeOrReplace content)

/-- `read_content_file_from_URL` (`src/content_reader.py` lines 9-42).
The guard `if bucket and blob_name:` tests Python truthiness, so an empty
bucket or key falls to the generic-HTTP branch. -/
def read_content_file_from_URL (file_url : String) (storageBytes : List Nat)
    (httpResp : HttpGetResponse)
    (extract_pdf_text : List Nat → Except String String) : Except String String :=
  match parse_storage_url file_url with
  | .error e => .error e
  | .ok (some (bucket, blob_name)) =>
    if bucket ≠ "" ∧ blob_name ≠ "" then
      .ok (readStorageBranch file_url storageBytes extract_pdf_text)
    else readHttpBranch file_url httpResp extract_pdf_text
  | .ok none => readHttpBranch file_url httpResp extract_pdf_text

/-! ### Character classes for the URL theorems

The universally quantified theorems about `parse_storage_url` restrict
bucket names and object keys to the characters for which the
`urllib.parse.urlsplit` sanitization (strip/cleanse, netloc brackets,
non-ASCII netloc check) is a no-op — which every character of the four
documented URL shapes satisfies. -/

/-- A character admissible in a bucket name: printable ASCII, not a
netloc delimiter and not a bracket. -/
def goodBucketChar (c : Char) : Bool :=
  decide (32 < c.toNat ∧ c.toNat ≤ 126 ∧ c ∉ ['/', '?', '#', '[', ']'])

/-- A character admissible in an object key: above the control/space
range and neither `?` nor `#` (so no query/fragment split happens). -/
def goodKeyChar (c : Char) : Bool :=
  decide (32 < c.toNat ∧ c ∉ ['?', '#'])

deriving instance DecidableEq for Except

/-! ## Helper lemmas -/

theorem strMk_data (s : String) : String.mk s.data = s := by
  cases s
  rfl

theorem takeWhile_append_all {p : Char → Bool} (a b : List Char)
    (h : ∀ c ∈ a, p c = true) : (a ++ b).takeWhile p = a ++ b.takeWhile p := by
  induction a with
  | nil => simp
  | cons c t ih =>
    have hc := h c (by simp)
    simp [List.takeWhile_cons, hc, ih (fun d hd => h d (by simp [hd]))]

theorem dropWhile_append_all {p : Char → Bool} (a b : List Char)
    (h : ∀ c ∈ a, p c = true) : (a ++ b).dropWhile p = b.dropWhile p := by
  induction a with
  | nil => simp
  | cons c t ih =>
    have hc := h c (by simp)
    simp [List.dropWhile_cons, hc, ih (fun d hd => h d (by simp [hd]))]

theorem dropWhile_eq_self_all {p : Char → Bool} (l : List Char)
    (h : ∀ c ∈ l, p c = false) : l.dropWhile p = l := by
  cases l with
  | nil => rfl
  | cons c t => simp [List.dropWhile_cons, h c (by simp)]

theorem char_ne_small {c d : Char} (h : 32 < c.toNat) (hd : d.toNat ≤ 32) : c ≠ d := by
  intro e
  subst e
  omega

theorem splitSlash_ne_nil (l : List Char) : splitSlash l ≠ [] := by
  induction l with
  | nil => simp [splitSlash]
  | cons c t ih =>
    simp only [splitSlash]
    split
    · simp
    · split <;> simp

theorem splitSlash_append (a b : List Char) (ha : '/' ∉ a) :
    splitSlash (a ++ '/' :: b) = a :: splitSlash b := by
  induction a with
  | nil => simp [splitSlash]
  | cons c t ih =>
    have hc : ¬ c = '/' := fun e => ha (by simp [e])
    have ht : '/' ∉ t := fun hm => ha (by simp [hm])
    rw [List.cons_append]
    simp only [splitSlash, if_neg hc, ih ht]

theorem joinSlash_splitSlash (l : List Char) : joinSlash (splitSlash l) = l := by
  induction l with
  | nil => rfl
  | cons c t ih =>
    by_cases hc : c = '/'
    · subst hc
      simp only [splitSlash, if_pos rfl]
      rcases hs : splitSlash t with _ | ⟨y, ys⟩
      · exact absurd hs (splitSlash_ne_nil t)
      · rw [hs] at ih
        simpa [joinSlash] using ih
    · simp only [splitSlash, if_neg hc]
      rcases hs : splitSlash t with _ | ⟨y, ys⟩
      · exact absurd hs (splitSlash_ne_nil t)
      · rw [hs] at ih
        cases ys with
        | nil => simpa [joinSlash] using congrArg (c :: ·) ih
        | cons z zs => simpa [joinSlash] using congrArg (c :: ·) ih

theorem splitOnFirstChar_not_mem (ch : Char) (l : List Char) (h : ch ∉ l) :
    splitOnFirstChar ch l = (l, []) := by
  simp [splitOnFirstChar, h]

theorem stripC0_eq_self (l : List Char) (h : ∀ c ∈ l, 32 < c.toNat) : stripC0 l = l := by
  have hd : ∀ m : List Char, (∀ c ∈ m, 32 < c.toNat) → m.dropWhile isC0OrSpace = m := by
    intro m hm
    refine dropWhile_eq_self_all m (fun c hc => ?_)
    have := hm c hc
    simp [isC0OrSpace]
    omega
  unfold stripC0
  rw [hd l h, hd _ (fun c hc => h c (List.mem_reverse.mp hc)), List.reverse_reverse]

theorem removeControlBytes_eq_self (l : List Char) (h : ∀ c ∈ l, 32 < c.toNat) :
    removeControlBytes l = l := by
  unfold removeControlBytes
  refine List.filter_eq_self.mpr (fun c hc => ?_)
  have hb := h c hc
  simp only [Bool.and_eq_true, bne_iff_ne, ne_eq]
  exact ⟨⟨char_ne_small hb (by decide), char_ne_small hb (by decide)⟩,
    char_ne_small hb (by decide)⟩

theorem sanitize_eq_self (l : List Char) (h : ∀ c ∈ l, 32 < c.toNat) :
    removeControlBytes (stripC0 l) = l := by
  rw [stripC0_eq_self l h, removeControlBytes_eq_self l h]

theorem goodBucket_big {l : List Char} (h : ∀ c ∈ l, goodBucketChar c = true) :
    ∀ c ∈ l, 32 < c.toNat := by
  intro c hc
  have := h c hc
  simp [goodBucketChar] at this
  exact this.1

theorem goodKey_big {l : List Char} (h : ∀ c ∈ l, goodKeyChar c = true) :
    ∀ c ∈ l, 32 < c.toNat := by
  intro c hc
  have := h c hc
  simp [goodKeyChar] at this
  exact this.1

theorem goodBucket_netloc {l : List Char} (h : ∀ c ∈ l, goodBucketChar c = true) :
    ∀ c ∈ l, notNetlocDelim c = true := by
  intro c hc
  have := h c hc
  simp [goodBucketChar] at this
  simp [notNetlocDelim, bne_iff_ne]
  exact ⟨⟨this.2.2.1, this.2.2.2.1⟩, this.2.2.2.2.1⟩

theorem goodBucket_not_slash {l : List Char} (h : ∀ c ∈ l, goodBucketChar c = true) :
    '/' ∉ l := by
  intro hm
  have := h _ hm
  simp [goodBucketChar] at this

theorem goodBucket_no_lbracket {l : List Char} (h : ∀ c ∈ l, goodBucketChar c = true) :
    '[' ∉ l := by
  intro hm
  have := h _ hm
  simp [goodBucketChar] at this

theorem goodBucket_no_rbracket {l : List Char} (h : ∀ c ∈ l, goodBucketChar c = true) :
    ']' ∉ l := by
  intro hm
  have := h _ hm
  simp [goodBucketChar] at this

theorem goodBucket_no_hash {l : List Char} (h : ∀ c ∈ l, goodBucketChar c = true) :
    '#' ∉ l := by
  intro hm
  have := h _ hm
  simp [goodBucketChar] at this

theorem goodBucket_no_query {l : List Char} (h : ∀ c ∈ l, goodBucketChar c = true) :
    '?' ∉ l := by
  intro hm
  have := h _ hm
  simp [goodBucketChar] at this

theorem goodKey_no_hash {l : List Char} (h : ∀ c ∈ l, goodKeyChar c = true) :
    '#' ∉ l := by
  intro hm
  have := h _ hm
  simp [goodKeyChar] at this

theorem goodKey_no_query {l : List Char} (h : ∀ c ∈ l, goodKeyChar c = true) :
    '?' ∉ l := by
  intro hm
  have := h _ hm
  simp [goodKeyChar] at this

theorem extractNetloc_shape (host rest : List Char)
    (hh : ∀ c ∈ host, notNetlocDelim c = true) :
    extractNetloc ('/' :: '/' :: (host ++ '/' :: rest)) = (host, '/' :: rest) := by
  show ((host ++ '/' :: rest).takeWhile notNetlocDelim,
    (host ++ '/' :: rest).dropWhile notNetlocDelim) = (host, '/' :: rest)
  rw [takeWhile_append_all _ _ hh, dropWhile_append_all _ _ hh]
  simp [List.takeWhile_cons, List.dropWhile_cons, notNetlocDelim]

theorem strMk_nil : String.mk [] = "" := rfl

/-- Workhorse: a sanitization-stable URL of shape `scheme://host/rest`
with a delimiter-free, bracket-free host and no `#`/`?` after the host
splits into exactly those components. -/
theorem urlsplitCore_shape (l scheme host rest : List Char)
    (hstrip : removeControlBytes (stripC0 l) = l)
    (hsch : extractScheme l = (scheme, '/' :: '/' :: (host ++ '/' :: rest)))
    (hhost : ∀ c ∈ host, notNetlocDelim c = true)
    (hlb : '[' ∉ host) (hrb : ']' ∉ host)
    (hnh : '#' ∉ '/' :: rest) (hnq : '?' ∉ '/' :: rest) :
    urlsplitCore l =
      .ok ⟨String.mk scheme, String.mk host, String.mk ('/' :: rest), "", ""⟩ := by
  unfold urlsplitCore
  simp only [hstrip, hsch, extractNetloc_shape host rest hhost]
  rw [if_neg (by simp [hlb, hrb])]
  rw [splitOnFirstChar_not_mem _ _ hnh]
  rw [splitOnFirstChar_not_mem _ _ hnq]

theorem urlsplitCore_gs (bucket key : List Char)
    (hb : ∀ c ∈ bucket, goodBucketChar c = true)
    (hk : ∀ c ∈ key, goodKeyChar c = true) :
    urlsplitCore ('g' :: 's' :: ':' :: '/' :: '/' :: (bucket ++ '/' :: key)) =
      .ok ⟨"gs", String.mk bucket, String.mk ('/' :: key), "", ""⟩ := by
  have hbig : ∀ c ∈ 'g' :: 's' :: ':' :: '/' :: '/' :: (bucket ++ '/' :: key),
      32 < c.toNat := by
    intro c hc
    simp only [List.mem_cons, List.mem_append] at hc
    rcases hc with rfl | rfl | rfl | rfl | rfl | hc | rfl | hc
    · decide
    · decide
    · decide
    · decide
    · decide
    · exact goodBucket_big hb c hc
    · decide
    · exact goodKey_big hk c hc
  refine urlsplitCore_shape _ ['g', 's'] bucket key (sanitize_eq_self _ hbig) rfl
    (goodBucket_netloc hb) (goodBucket_no_lbracket hb) (goodBucket_no_rbracket hb) ?_ ?_
  · simp only [List.mem_cons]
    rintro (e | hm)
    · exact absurd e (by decide)
    · exact goodKey_no_hash hk hm
  · simp only [List.mem_cons]
    rintro (e | hm)
    · exact absurd e (by decide)
    · exact goodKey_no_query hk hm

theorem urlsplitCore_https (host tail : List Char)
    (hhostBig : ∀ c ∈ host, 32 < c.toNat)
    (hhost : ∀ c ∈ host, notNetlocDelim c = true)
    (hlb : '[' ∉ host) (hrb : ']' ∉ host)
    (htailBig : ∀ c ∈ tail, 32 < c.toNat)
    (hnh : '#' ∉ tail) (hnq : '?' ∉ tail) :
    urlsplitCore ('h' :: 't' :: 't' :: 'p' :: 's' :: ':' :: '/' :: '/' ::
        (host ++ '/' :: tail)) =
      .ok ⟨"https", String.mk host, String.mk ('/' :: tail), "", ""⟩ := by
  have hbig : ∀ c ∈ 'h' :: 't' :: 't' :: 'p' :: 's' :: ':' :: '/' :: '/' ::
      (host ++ '/' :: tail), 32 < c.toNat := by
    intro c hc
    simp only [List.mem_cons, List.mem_append] at hc
    rcases hc with rfl | rfl | rfl | rfl | rfl | rfl | rfl | rfl | hc | rfl | hc
    · decide
    · decide
    · decide
    · decide
    · decide
    · decide
    · decide
    · decide
    · exact hhostBig c hc
    · decide
    · exact htailBig c hc
  refine urlsplitCore_shape _ ['h', 't', 't', 'p', 's'] host tail
    (sanitize_eq_self _ hbig) rfl hhost hlb hrb ?_ ?_
  · simp only [List.mem_cons]
    rintro (e | hm)
    · exact absurd e (by decide)
    · exact hnh hm
  · simp only [List.mem_cons]
    rintro (e | hm)
    · exact absurd e (by decide)
    · exact hnq hm

theorem lstripSlash_bucket (bucket tail : List Char) (hbne : bucket ≠ [])
    (hb : '/' ∉ bucket) : lstripSlash ('/' :: (bucket ++ tail)) = bucket ++ tail := by
  cases bucket with
  | nil => exact absurd rfl hbne
  | cons c t =>
    have hc : (c == '/') = false := by
      simp only [beq_eq_false_iff_ne, ne_eq]
      intro e
      exact hb (by simp [e])
    simp [lstripSlash, List.dropWhile_cons, hc]

theorem lstripSlash_head (key : List Char) (hk0 : key.head? ≠ some '/') :
    lstripSlash ('/' :: key) = key := by
  cases key with
  | nil => rfl
  | cons c t =>
    have hc : (c == '/') = false := by
      simp only [beq_eq_false_iff_ne, ne_eq]
      intro e
      exact hk0 (by simp [e])
    simp [lstripSlash, List.dropWhile_cons, hc]

/-- `parse_storage_url` on the `gs://bucket/key` form
(`src/storage_url.py` lines 5-8): netloc is the bucket, slash-stripped
path is the key. -/
theorem parse_gs_form (bucket key : String)
    (hb : ∀ c ∈ bucket.data, goodBucketChar c = true)
    (hk : ∀ c ∈ key.data, goodKeyChar c = true)
    (hk0 : key.data.head? ≠ some '/') :
    parse_storage_url ("gs://" ++ bucket ++ "/" ++ key) = .ok (some (bucket, key)) := by
  have h1 : ("gs://" : String).data = ['g', 's', ':', '/', '/'] := by decide
  have h2 : ("/" : String).data = ['/'] := by decide
  have hdata : ("gs://" ++ bucket ++ "/" ++ key).data
      = 'g' :: 's' :: ':' :: '/' :: '/' :: (bucket.data ++ '/' :: key.data) := by
    simp [String.data_append, h1, h2]
  unfold parse_storage_url urlsplit
  rw [hdata, urlsplitCore_gs _ _ hb hk]
  show Except.ok (some (String.mk bucket.data,
    String.mk (lstripSlash (String.mk ('/' :: key.data)).data))) = _
  rw [show (String.mk ('/' :: key.data)).data = '/' :: key.data from rfl,
    lstripSlash_head _ hk0, strMk_data, strMk_data]

theorem not_mem_append_slash {ch : Char} {b k : List Char} (hb : ch ∉ b)
    (hs : ch ≠ '/') (hk : ch ∉ k) : ch ∉ b ++ '/' :: k := by
  simp only [List.mem_append, List.mem_cons]
  rintro (h | h | h)
  exacts [hb h, hs h, hk h]

theorem big_append_slash {b k : List Char} (hb : ∀ c ∈ b, 32 < c.toNat)
    (hk : ∀ c ∈ k, 32 < c.toNat) : ∀ c ∈ b ++ '/' :: k, 32 < c.toNat := by
  intro c hc
  simp only [List.mem_append, List.mem_cons] at hc
  rcases hc with h | rfl | h
  exacts [hb c h, by decide, hk c h]

/-- `parse_storage_url` on the `https://storage.googleapis.com/<bucket>/<key>`
form (`src/storage_url.py` lines 12-15): first path segment is the
bucket, the rest rejoined with `/` is the key. -/
theorem parse_sgapi_form (bucket key : String) (hbne : bucket.data ≠ [])
    (hb : ∀ c ∈ bucket.data, goodBucketChar c = true)
    (hk : ∀ c ∈ key.data, goodKeyChar c = true) :
    parse_storage_url ("https://storage.googleapis.com/" ++ bucket ++ "/" ++ key) =
      .ok (some (bucket, key)) := by
  have h1 : ("https://storage.googleapis.com/" : String).data
      = 'h' :: 't' :: 't' :: 'p' :: 's' :: ':' :: '/' :: '/' ::
        ("storage.googleapis.com".data ++ ['/']) := by decide
  have h2 : ("/" : String).data = ['/'] := by decide
  have hdata : ("https://storage.googleapis.com/" ++ bucket ++ "/" ++ key).data
      = 'h' :: 't' :: 't' :: 'p' :: 's' :: ':' :: '/' :: '/' ::
        ("storage.googleapis.com".data ++ '/' :: (bucket.data ++ '/' :: key.data)) := by
    simp [String.data_append, h1, h2]
  unfold parse_storage_url urlsplit
  rw [hdata, urlsplitCore_https "storage.googleapis.com".data
    (bucket.data ++ '/' :: key.data)
    (by decide) (by decide) (by decide) (by decide)
    (big_append_slash (goodBucket_big hb) (goodKey_big hk))
    (not_mem_append_slash (goodBucket_no_hash hb) (by decide) (goodKey_no_hash hk))
    (not_mem_append_slash (goodBucket_no_query hb) (by decide) (goodKey_no_query hk))]
  dsimp only
  rw [if_neg (by decide)]
  rw [show pathPartsOf ⟨"https", String.mk "storage.googleapis.com".data,
      String.mk ('/' :: (bucket.data ++ '/' :: key.data)), "", ""⟩
      = bucket.data :: splitSlash key.data by
    unfold pathPartsOf
    rw [show (String.mk ('/' :: (bucket.data ++ '/' :: key.data))).data
        = '/' :: (bucket.data ++ '/' :: key.data) from rfl]
    rw [lstripSlash_bucket _ _ hbne (goodBucket_not_slash hb)]
    rw [if_neg (by simp [hbne]), splitSlash_append _ _ (goodBucket_not_slash hb)]]
  have hlen : 2 ≤ (bucket.data :: splitSlash key.data).length := by
    have := List.length_pos.mpr (splitSlash_ne_nil key.data)
    simp only [List.length_cons]
    omega
  rw [if_pos ⟨by decide, hlen⟩]
  simp only [List.headD_cons, List.drop_one, List.tail_cons]
  rw [joinSlash_splitSlash, strMk_data, strMk_data]

/-- `parse_storage_url` on the `https://storage.cloud.google.com/<bucket>/<key>`
form (`src/storage_url.py` lines 16-19). -/
theorem parse_scloud_form (bucket key : String) (hbne : bucket.data ≠ [])
    (hb : ∀ c ∈ bucket.data, goodBucketChar c = true)
    (hk : ∀ c ∈ key.data, goodKeyChar c = true) :
    parse_storage_url ("https://storage.cloud.google.com/" ++ bucket ++ "/" ++ key) =
      .ok (some (bucket, key)) := by
  have h1 : ("https://storage.cloud.google.com/" : String).data
      = 'h' :: 't' :: 't' :: 'p' :: 's' :: ':' :: '/' :: '/' ::
        ("storage.cloud.google.com".data ++ ['/']) := by decide
  have h2 : ("/" : String).data = ['/'] := by decide
  have hdata : ("https://storage.cloud.google.com/" ++ bucket ++ "/" ++ key).data
      = 'h' :: 't' :: 't' :: 'p' :: 's' :: ':' :: '/' :: '/' ::
        ("storage.cloud.google.com".data ++ '/' :: (bucket.data ++ '/' :: key.data)) := by
    simp [String.data_append, h1, h2]
  unfold parse_storage_url urlsplit
  rw [hdata, urlsplitCore_https "storage.cloud.google.com".data
    (bucket.data ++ '/' :: key.data)
    (by decide) (by decide) (by decide) (by decide)
    (big_append_slash (goodBucket_big hb) (goodKey_big hk))
    (not_mem_append_slash (goodBucket_no_hash hb) (by decide) (goodKey_no_hash hk))
    (not_mem_append_slash (goodBucket_no_query hb) (by decide) (goodKey_no_query hk))]
  dsimp only
  rw [if_neg (by decide)]
  rw [show pathPartsOf ⟨"https", String.mk "storage.cloud.google.com".data,
      String.mk ('/' :: (bucket.data ++ '/' :: key.data)), "", ""⟩
      = bucket.data :: splitSlash key.data by
    unfold pathPartsOf
    rw [show (String.mk ('/' :: (bucket.data ++ '/' :: key.data))).data
        = '/' :: (bucket.data ++ '/' :: key.data) from rfl]
    rw [lstripSlash_bucket _ _ hbne (goodBucket_not_slash hb)]
    rw [if_neg (by simp [hbne]), splitSlash_append _ _ (goodBucket_not_slash hb)]]
  have hlen : 2 ≤ (bucket.data :: splitSlash key.data).length := by
    have := List.length_pos.mpr (splitSlash_ne_nil key.data)
    simp only [List.length_cons]
    omega
  rw [if_neg (by
    rintro ⟨he, _⟩
    exact absurd he (by decide))]
  rw [if_pos ⟨by decide, hlen⟩]
  simp only [List.headD_cons, List.drop_one, List.tail_cons]
  rw [joinSlash_splitSlash, strMk_data, strMk_data]

theorem splitSlash_fb (bucket ekey : List Char) (hb : '/' ∉ bucket) :
    splitSlash ('v' :: '0' :: '/' :: 'b' :: '/' :: (bucket ++ '/' :: 'o' :: '/' :: ekey))
      = ['v', '0'] :: ['b'] :: bucket :: ['o'] :: splitSlash ekey := by
  have e1 : 'v' :: '0' :: '/' :: 'b' :: '/' :: (bucket ++ '/' :: 'o' :: '/' :: ekey)
      = ['v', '0'] ++ '/' :: (['b'] ++ '/' :: (bucket ++ '/' :: (['o'] ++ '/' :: ekey))) := by
    simp
  rw [e1, splitSlash_append _ _ (by decide), splitSlash_append _ _ (by decide),
    splitSlash_append _ _ hb, splitSlash_append _ _ (by decide)]

theorem firebaseMatch_shape (bucket : List Char) (rest : List (List Char)) (hr : rest ≠ []) :
    firebaseMatch (['v', '0'] :: ['b'] :: bucket :: ['o'] :: rest)
      = some (bucket, joinSlash rest) := by
  cases rest with
  | nil => exact absurd rfl hr
  | cons y ys => rfl

/-- `parse_storage_url` on the
`https://firebasestorage.googleapis.com/v0/b/<bucket>/o/<ekey>` form
(`src/storage_url.py` lines 20-25): fixed segments `v0`, `b`, bucket,
`o`, and the percent-decoded join of the remaining segments. -/
theorem parse_firebase_form (bucket ekey : String)
    (hb : ∀ c ∈ bucket.data, goodBucketChar c = true)
    (he : ∀ c ∈ ekey.data, goodKeyChar c = true) :
    parse_storage_url
        ("https://firebasestorage.googleapis.com/v0/b/" ++ bucket ++ "/o/" ++ ekey) =
      .ok (some (bucket, unquote ekey)) := by
  have h1 : ("https://firebasestorage.googleapis.com/v0/b/" : String).data
      = 'h' :: 't' :: 't' :: 'p' :: 's' :: ':' :: '/' :: '/' ::
        ("firebasestorage.googleapis.com".data ++ '/' :: 'v' :: '0' :: '/' :: 'b' :: ['/']) := by
    decide
  have h3 : ("/o/" : String).data = ['/', 'o', '/'] := by decide
  have hdata : ("https://firebasestorage.googleapis.com/v0/b/" ++ bucket ++ "/o/" ++ ekey).data
      = 'h' :: 't' :: 't' :: 'p' :: 's' :: ':' :: '/' :: '/' ::
        ("firebasestorage.googleapis.com".data ++ '/' ::
          ('v' :: '0' :: '/' :: 'b' :: '/' :: (bucket.data ++ '/' :: 'o' :: '/' :: ekey.data))) := by
    simp [String.data_append, h1, h3]
  have hTailBig : ∀ c ∈ 'v' :: '0' :: '/' :: 'b' :: '/' ::
      (bucket.data ++ '/' :: 'o' :: '/' :: ekey.data), 32 < c.toNat := by
    intro c hc
    simp only [List.mem_cons, List.mem_append] at hc
    rcases hc with rfl | rfl | rfl | rfl | rfl | hc | rfl | rfl | rfl | hc
    · decide
    · decide
    · decide
    · decide
    · decide
    · exact goodBucket_big hb c hc
    · decide
    · decide
    · decide
    · exact goodKey_big he c hc
  have hTailHash : '#' ∉ 'v' :: '0' :: '/' :: 'b' :: '/' ::
      (bucket.data ++ '/' :: 'o' :: '/' :: ekey.data) := by
    intro hc
    simp only [List.mem_cons, List.mem_append] at hc
    rcases hc with e | e | e | e | e | hc | e | e | e | hc
    · exact absurd e (by decide)
    · exact absurd e (by decide)
    · exact absurd e (by decide)
    · exact absurd e (by decide)
    · exact absurd e (by decide)
    · exact goodBucket_no_hash hb hc
    · exact absurd e (by decide)
    · exact absurd e (by decide)
    · exact absurd e (by decide)
    · exact goodKey_no_hash he hc
  have hTailQuery : '?' ∉ 'v' :: '0' :: '/' :: 'b' :: '/' ::
      (bucket.data ++ '/' :: 'o' :: '/' :: ekey.data) := by
    intro hc
    simp only [List.mem_cons, List.mem_append] at hc
    rcases hc with e | e | e | e | e | hc | e | e | e | hc
    · exact absurd e (by decide)
    · exact absurd e (by decide)
    · exact absurd e (by decide)
    · exact absurd e (by decide)
    · exact absurd e (by decide)
    · exact goodBucket_no_query hb hc
    · exact absurd e (by decide)
    · exact absurd e (by decide)
    · exact absurd e (by decide)
    · exact goodKey_no_query he hc
  unfold parse_storage_url urlsplit
  rw [hdata, urlsplitCore_https "firebasestorage.googleapis.com".data
    ('v' :: '0' :: '/' :: 'b' :: '/' :: (bucket.data ++ '/' :: 'o' :: '/' :: ekey.data))
    (by decide) (by decide) (by decide) (by decide) hTailBig hTailHash hTailQuery]
  dsimp only
  rw [if_neg (by decide)]
  rw [show pathPartsOf ⟨"https", String.mk "firebasestorage.googleapis.com".data,
      String.mk ('/' :: ('v' :: '0' :: '/' :: 'b' :: '/' ::
        (bucket.data ++ '/' :: 'o' :: '/' :: ekey.data))), "", ""⟩
      = ['v', '0'] :: ['b'] :: bucket.data :: ['o'] :: splitSlash ekey.data by
    unfold pathPartsOf
    rw [show (String.mk ('/' :: ('v' :: '0' :: '/' :: 'b' :: '/' ::
        (bucket.data ++ '/' :: 'o' :: '/' :: ekey.data)))).data
        = '/' :: ('v' :: '0' :: '/' :: 'b' :: '/' ::
          (bucket.data ++ '/' :: 'o' :: '/' :: ekey.data)) from rfl]
    rw [lstripSlash_head _ (by
      intro h
      rw [List.head?_cons] at h
      exact absurd (Option.some.inj h) (by decide))]
    rw [if_neg (by simp), splitSlash_fb _ _ (goodBucket_not_slash hb)]]
  rw [if_neg (by
    rintro ⟨he2, _⟩
    exact absurd he2 (by decide))]
  rw [if_neg (by
    rintro ⟨he2, _⟩
    exact absurd he2 (by decide))]
  rw [if_pos (by decide)]
  rw [firebaseMatch_shape _ _ (splitSlash_ne_nil ekey.data)]
  dsimp only
  rw [joinSlash_splitSlash, strMk_data, strMk_data]

/-! ## Claim C1 -/

/-- Claim C1: for every URL in one of the four supported object-storage
surface forms — `gs://bucket/key`,
`https://storage.googleapis.com/<bucket>/<key>`,
`https://storage.cloud.google.com/<bucket>/<key>` and
`https://firebasestorage.googleapis.com/v0/b/<bucket>/o/<ekey>` —
`parse_storage_url` returns exactly the pair (bucket, key): the key keeps
interior slashes (nothing restricts `key`/`ekey` from containing `/`),
the separating slash is stripped, and on the firebasestorage form the key
is percent-decoded (`unquote ekey`).  The function is a pure string
transformation (it is modelled as a total Lean function of the URL
string alone).  Bucket and key characters range over the classes
`goodBucketChar`/`goodKeyChar`, which hold for every character of the
documented URL shapes. -/
theorem parse_storage_url_supported_forms (bucket key ekey : String)
    (hbne : bucket.data ≠ [])
    (hb : ∀ c ∈ bucket.data, goodBucketChar c = true)
    (hk : ∀ c ∈ key.data, goodKeyChar c = true)
    (hk0 : key.data.head? ≠ some '/')
    (he : ∀ c ∈ ekey.data, goodKeyChar c = true) :
    parse_storage_url ("gs://" ++ bucket ++ "/" ++ key) = .ok (some (bucket, key)) ∧
    parse_storage_url ("https://storage.googleapis.com/" ++ bucket ++ "/" ++ key) =
      .ok (some (bucket, key)) ∧
    parse_storage_url ("https://storage.cloud.google.com/" ++ bucket ++ "/" ++ key) =
      .ok (some (bucket, key)) ∧
    parse_storage_url ("https://firebasestorage.googleapis.com/v0/b/" ++ bucket ++ "/o/" ++ ekey) =
      .ok (some (bucket, unquote ekey)) :=
  ⟨parse_gs_form bucket key hb hk hk0, parse_sgapi_form bucket key hbne hb hk,
    parse_scloud_form bucket key hbne hb hk, parse_firebase_form bucket ekey hb he⟩

/-- Witness for C1 at the spec's example inputs: `gs://bucket1/path/to/file.pdf`
and the percent-encoded firebasestorage URL both recover
`("bucket1", "path/to/file.pdf")`. -/
theorem parse_storage_url_supported_forms_witness :
    parse_storage_url "gs://bucket1/path/to/file.pdf" =
      .ok (some ("bucket1", "path/to/file.pdf")) ∧
    parse_storage_url "https://storage.googleapis.com/bucket1/path/to/file.pdf" =
      .ok (some ("bucket1", "path/to/file.pdf")) ∧
    parse_storage_url "https://storage.cloud.google.com/bucket1/path/to/file.pdf" =
      .ok (some ("bucket1", "path/to/file.pdf")) ∧
    parse_storage_url "https://firebasestorage.googleapis.com/v0/b/bucket1/o/path%2Fto%2Ffile.pdf" =
      .ok (some ("bucket1", "path/to/file.pdf")) := by
  obtain ⟨h1, h2, h3, h4⟩ := parse_storage_url_supported_forms "bucket1" "path/to/file.pdf"
    "path%2Fto%2Ffile.pdf" (by decide) (by decide) (by decide) (by decide) (by decide)
  rw [show ("gs://" ++ "bucket1" ++ "/" ++ "path/to/file.pdf" : String)
      = "gs://bucket1/path/to/file.pdf" from by decide] at h1
  rw [show ("https://storage.googleapis.com/" ++ "bucket1" ++ "/" ++ "path/to/file.pdf" : String)
      = "https://storage.googleapis.com/bucket1/path/to/file.pdf" from by decide] at h2
  rw [show ("https://storage.cloud.google.com/" ++ "bucket1" ++ "/" ++ "path/to/file.pdf" : String)
      = "https://storage.cloud.google.com/bucket1/path/to/file.pdf" from by decide] at h3
  rw [show ("https://firebasestorage.googleapis.com/v0/b/" ++ "bucket1" ++ "/o/" ++ "path%2Fto%2Ffile.pdf" : String)
      = "https://firebasestorage.googleapis.com/v0/b/bucket1/o/path%2Fto%2Ffile.pdf" from by decide,
    show unquote "path%2Fto%2Ffile.pdf" = "path/to/file.pdf" from by decide] at h4
  exact ⟨h1, h2, h3, h4⟩

/-! ## Claim C9 -/

/-- Claim C9 (amended): every URL that `urlsplit` parses without raising
and whose scheme/host/path shape matches none of the four recognized
object-storage forms yields `(None, None)` — the scheme is not `gs`, and
for each of the three special hosts either the host differs or the path
shape fails that host's branch condition.  (The unamended claim is
refuted by `parse_storage_url_bracket_counterexample`: a URL whose
authority has an unbalanced bracket makes `urlsplit` raise `ValueError`,
which propagates, instead of returning `(None, None)`.) -/
theorem parse_storage_url_unrecognized (u : String) (r : UrlSplitResult)
    (hu : urlsplit u = .ok r) (hgs : r.scheme ≠ "gs")
    (h1 : r.netloc = "storage.googleapis.com" → (pathPartsOf r).length < 2)
    (h2 : r.netloc = "storage.cloud.google.com" → (pathPartsOf r).length < 2)
    (h3 : r.netloc = "firebasestorage.googleapis.com" →
      firebaseMatch (pathPartsOf r) = none) :
    parse_storage_url u = .ok none := by
  unfold parse_storage_url
  rw [hu]
  dsimp only
  rw [if_neg hgs]
  rw [if_neg (by
    rintro ⟨ha, hlen⟩
    have := h1 ha
    omega)]
  rw [if_neg (by
    rintro ⟨ha, hlen⟩
    have := h2 ha
    omega)]
  by_cases e3 : r.netloc = "firebasestorage.googleapis.com"
  · rw [if_pos e3, h3 e3]
  · rw [if_neg e3]

/-- Witness for C9 at the spec's example: `https://example.com/doc.txt`
is not object storage. -/
theorem parse_storage_url_unrecognized_witness :
    parse_storage_url "https://example.com/doc.txt" = .ok none := by
  refine parse_storage_url_unrecognized _ ⟨"https", "example.com", "/doc.txt", "", ""⟩
    (by decide) (by decide) ?_ ?_ ?_ <;>
    exact fun h => absurd h (by decide)

/-- Counterexample to C9 as stated: `parse_storage_url` does not return
`(None, None)` on every non-matching URL — on
`https://[bad/doc.txt` (authority with an unbalanced bracket, CPython
raises `ValueError("Invalid IPv6 URL")` in `urlsplit`) the exception
propagates out of `parse_storage_url`. -/
theorem parse_storage_url_bracket_counterexample :
    parse_storage_url "https://[bad/doc.txt" = .error "Invalid IPv6 URL" := by decide

/-! ## Claim C2 -/

/-- Claim C2 (amended): for every endpoint, session id, optional body and
method among GET/POST/PUT/DELETE, whenever the underlying `requests` call
raises a `RequestException` (transport failure, with or without an
attached response) or the backend's final response has a 4xx/5xx status
(the statuses `raise_for_status` rejects), `make_authenticated_request`
does not raise: it returns a failure envelope with `success = false`, the
stable code `BACKEND_REQUEST_FAILED`, the fixed human-safe message, and —
when a response body is available — `details` equal to the body truncated
to 1000 characters.  (The unamended claim — *every* non-2xx status, and
credential failures too, yield the envelope — is refuted by
`make_authenticated_request_counterexample`: a failing credential fetch
raises, because `get_service_token()` stands before the `try`, and a 304
response returns the raw body.) -/
theorem make_authenticated_request_failure_envelope
    (endpoint session_id : String) (data : Option String) (tok method : String)
    (hm : method = "GET" ∨ method = "POST" ∨ method = "PUT" ∨ method = "DELETE")
    (http : HttpAttempt)
    (hfail : (∃ m r, http = .requestException m r) ∨
      (∃ s b es, http = .response s b es ∧ 400 ≤ s ∧ s < 600)) :
    ∃ env, make_authenticated_request endpoint method session_id data (.ok tok) http
        = .ok (.envelope env) ∧
      env.success = false ∧ env.error_code = "BACKEND_REQUEST_FAILED" ∧
      env.message = "Request to classroom service failed." ∧
      (∀ s b es, http = .response s b es → b ≠ "" → env.details = pySlice b 1000) ∧
      (∀ m s b, http = .requestException m (some (s, b)) → b ≠ "" →
        env.details = pySlice b 1000) := by
  have hcond : pyUpper method = "GET" ∨ pyUpper method = "POST" ∨
      pyUpper method = "PUT" ∨ pyUpper method = "DELETE" := by
    rcases hm with rfl | rfl | rfl | rfl
    · exact Or.inl (by decide)
    · exact Or.inr (Or.inl (by decide))
    · exact Or.inr (Or.inr (Or.inl (by decide)))
    · exact Or.inr (Or.inr (Or.inr (by decide)))
  rcases hfail with ⟨m, r, rfl⟩ | ⟨s, b, es, rfl, hs1, hs2⟩
  · cases r with
    | none =>
      refine ⟨mkFailureEnvelope none "" m, ?_, rfl, rfl, rfl, ?_, ?_⟩
      · unfold make_authenticated_request
        rw [if_pos hcond]
      · intro s b es h
        exact HttpAttempt.noConfusion h
      · intro m2 s2 b2 h
        injection h with h1 h2
        exact Option.noConfusion h2
    | some p =>
      obtain ⟨st, b⟩ := p
      refine ⟨mkFailureEnvelope (some st) b m, ?_, rfl, rfl, rfl, ?_, ?_⟩
      · unfold make_authenticated_request
        rw [if_pos hcond]
      · intro s2 b2 es2 h
        exact HttpAttempt.noConfusion h
      · intro m2 s2 b2 h hb
        injection h with h1 h2
        injection h2 with h3
        obtain ⟨h4, h5⟩ := Prod.mk.injEq .. ▸ h3
        subst h5
        simp [mkFailureEnvelope, hb]
  · refine ⟨mkFailureEnvelope (some s) b es, ?_, rfl, rfl, rfl, ?_, ?_⟩
    · unfold make_authenticated_request
      rw [if_pos hcond]
      dsimp only
      rw [if_pos ⟨hs1, hs2⟩]
    · intro s2 b2 es2 h hb
      injection h with h1 h2 h3
      subst h2
      simp [mkFailureEnvelope, hb]
    · intro m2 s2 b2 h
      exact HttpAttempt.noConfusion h

/-- Witness for C2 (amended) at a concrete 503 response with a body. -/
theorem make_authenticated_request_failure_envelope_witness :
    ∃ env, make_authenticated_request "/api/v1/quizzes/from-details" "POST" "sess"
        none (.ok "tok") (.response 503 "service unavailable" "503 Server Error")
        = .ok (.envelope env) ∧
      env.success = false ∧ env.error_code = "BACKEND_REQUEST_FAILED" ∧
      env.message = "Request to classroom service failed." ∧
      (∀ s b es, HttpAttempt.response 503 "service unavailable" "503 Server Error"
        = .response s b es → b ≠ "" → env.details = pySlice b 1000) ∧
      (∀ m s b, HttpAttempt.response 503 "service unavailable" "503 Server Error"
        = .requestException m (some (s, b)) → b ≠ "" → env.details = pySlice b 1000) :=
  make_authenticated_request_failure_envelope "/api/v1/quizzes/from-details" "sess"
    none "tok" "POST" (Or.inr (Or.inl rfl)) _
    (Or.inr ⟨503, "service unavailable", "503 Server Error", rfl, by omega, by omega⟩)

/-- Counterexample to C2 as stated: (i) when the credential fetch raises,
`make_authenticated_request` raises too (the `get_service_token()` call
stands before the `try` block), instead of returning an envelope;
(ii) a non-2xx status that `raise_for_status` accepts — 304 — returns the
raw response text, not a `success = false` envelope. -/
theorem make_authenticated_request_counterexample :
    make_authenticated_request "/api/v1/materials/module/m1" "GET" "sess" none
        (.raises "credential failure") (.response 200 "ok" "") =
      .error (.credentialError "credential failure") ∧
    make_authenticated_request "/api/v1/materials/module/m1" "GET" "sess" none
        (.ok "token") (.response 304 "not modified" "err") =
      .ok (.text "not modified") := by
  constructor
  · rfl
  · decide

theorem isEmpty_false_of_ne_nil {α : Type} {l : List α} (h : l ≠ []) :
    l.isEmpty = false := by
  cases l with
  | nil => exact absurd rfl h
  | cons a t => rfl

/-! ## Claim C7 -/

/-- Claim C7: for every input on which parameter validation fails,
`generate_quiz` and `apply_quiz_revisions` return the
`success = false` / `error = "Validation failed"` response carrying the
itemized validation error list as `details`, and perform no backend call:
the result is the `respond` constructor, never `callBackend`, so no
network effect occurs before validation passes. -/
theorem tools_validation_gate (quiz_id title : String) (total_marks : ℚ)
    (duration_minutes : Int) (start_at end_at : String) (questions : List Question)
    (module_ids : List String) (session_id description : String)
    (v : ValidationResult)
    (hv : validate_quiz_parameters title total_marks duration_minutes start_at end_at
      questions module_ids = some v)
    (hinvalid : v.valid = false) :
    generate_quiz title total_marks duration_minutes start_at end_at questions
        module_ids session_id description =
      some (.respond ⟨false, "Validation failed", v.errors⟩) ∧
    apply_quiz_revisions quiz_id title total_marks duration_minutes start_at end_at
        questions module_ids session_id description =
      some (.respond ⟨false, "Validation failed", v.errors⟩) := by
  constructor
  · unfold generate_quiz
    rw [hv]
    dsimp only
    rw [if_neg (by simp [hinvalid])]
  · unfold apply_quiz_revisions
    rw [hv]
    dsimp only
    rw [if_neg (by simp [hinvalid])]

/-- Witness for C7 at a concrete input rejected for its empty title. -/
theorem tools_validation_gate_witness :
    generate_quiz "" 1 60 "2024-01-01T09:00:00Z" "2024-01-01T10:00:00Z"
        [⟨"Q1", ["A", "B"], some 0, some 1⟩] ["m1"] "sess" "" =
      some (.respond ⟨false, "Validation failed", [.titleEmpty]⟩) ∧
    apply_quiz_revisions "quiz1" "" 1 60 "2024-01-01T09:00:00Z" "2024-01-01T10:00:00Z"
        [⟨"Q1", ["A", "B"], some 0, some 1⟩] ["m1"] "sess" "" =
      some (.respond ⟨false, "Validation failed", [.titleEmpty]⟩) := by
  have hval : validate_quiz_parameters "" 1 60 "2024-01-01T09:00:00Z"
      "2024-01-01T10:00:00Z" [⟨"Q1", ["A", "B"], some 0, some 1⟩] ["m1"] =
      some ⟨false, [.titleEmpty]⟩ := by
    have hd : dateErrors "2024-01-01T09:00:00Z" "2024-01-01T10:00:00Z" = some [] := by
      decide
    unfold validate_quiz_parameters
    rw [hd]
    norm_num [validateErrorList, questionsErrors, perQuestionErrors, questionErrors,
      totalPoints, questionPoint, show pyStrip "" = "" from rfl,
      show pyStrip "Q1" ≠ "" from by decide,
      show correctIdxInvalid ⟨"Q1", ["A", "B"], some 0, some 1⟩ = false from by decide]
  exact tools_validation_gate "quiz1" "" 1 60 "2024-01-01T09:00:00Z"
    "2024-01-01T10:00:00Z" [⟨"Q1", ["A", "B"], some 0, some 1⟩] ["m1"] "sess" ""
    ⟨false, [.titleEmpty]⟩ hval rfl

/-! ## Claim C10 -/

/-- Claim C10: the validator requires a non-empty module identifier list —
on every input whose `module_ids` list is empty it adds the error
rendered exactly as `"At least one module_id is required"` and returns
`valid = false`, so `generate_quiz` and `apply_quiz_revisions` refuse
such inputs with the validation-failure response, before any backend
call, even when every other field is valid (the theorem assumes nothing
about the other fields). -/
theorem empty_module_ids_rejected (quiz_id title : String) (total_marks : ℚ)
    (duration_minutes : Int) (start_at end_at : String) (questions : List Question)
    (session_id description : String) (v : ValidationResult)
    (hv : validate_quiz_parameters title total_marks duration_minutes start_at end_at
      questions [] = some v) :
    VError.moduleIdRequired ∈ v.errors ∧ v.valid = false ∧
    render .moduleIdRequired = "At least one module_id is required" ∧
    generate_quiz title total_marks duration_minutes start_at end_at questions
        [] session_id description =
      some (.respond ⟨false, "Validation failed", v.errors⟩) ∧
    apply_quiz_revisions quiz_id title total_marks duration_minutes start_at end_at
        questions [] session_id description =
      some (.respond ⟨false, "Validation failed", v.errors⟩) := by
  have hv2 := hv
  unfold validate_quiz_parameters at hv2
  rcases hdm : dateErrors start_at end_at with _ | dErrs
  · rw [hdm] at hv2
    exact Option.noConfusion hv2
  · rw [hdm] at hv2
    dsimp only at hv2
    obtain ⟨vvalid, verrors⟩ := v
    have h1 := Option.some.inj hv2
    injection h1 with h3 h2
    subst h2
    subst h3
    have hmem : VError.moduleIdRequired ∈
        validateErrorList title total_marks duration_minutes dErrs questions [] := by
      simp [validateErrorList, List.mem_append]
    have hvalid := isEmpty_false_of_ne_nil (List.ne_nil_of_mem hmem)
    exact ⟨hmem, hvalid, rfl,
      (tools_validation_gate quiz_id title total_marks duration_minutes start_at end_at
        questions [] session_id description _ hv hvalid).1,
      (tools_validation_gate quiz_id title total_marks duration_minutes start_at end_at
        questions [] session_id description _ hv hvalid).2⟩

/-- Witness for C10: a quiz whose every field is valid but whose
`module_ids` is empty is refused with exactly the module-id error. -/
theorem empty_module_ids_rejected_witness :
    VError.moduleIdRequired ∈ [VError.moduleIdRequired] ∧
    (false : Bool) = false ∧
    render .moduleIdRequired = "At least one module_id is required" ∧
    generate_quiz "Quiz" 1 60 "2024-01-01T09:00:00Z" "2024-01-01T10:00:00Z"
        [⟨"Q1", ["A", "B"], some 0, some 1⟩] [] "sess" "" =
      some (.respond ⟨false, "Validation failed", [VError.moduleIdRequired]⟩) ∧
    apply_quiz_revisions "quiz1" "Quiz" 1 60 "2024-01-01T09:00:00Z"
        "2024-01-01T10:00:00Z" [⟨"Q1", ["A", "B"], some 0, some 1⟩] [] "sess" "" =
      some (.respond ⟨false, "Validation failed", [VError.moduleIdRequired]⟩) := by
  have hval : validate_quiz_parameters "Quiz" 1 60 "2024-01-01T09:00:00Z"
      "2024-01-01T10:00:00Z" [⟨"Q1", ["A", "B"], some 0, some 1⟩] [] =
      some ⟨false, [VError.moduleIdRequired]⟩ := by
    have hd : dateErrors "2024-01-01T09:00:00Z" "2024-01-01T10:00:00Z" = some [] := by
      decide
    unfold validate_quiz_parameters
    rw [hd]
    norm_num [validateErrorList, questionsErrors, perQuestionErrors, questionErrors,
      totalPoints, questionPoint, show pyStrip "Quiz" ≠ "" from by decide,
      show pyStrip "Q1" ≠ "" from by decide,
      show correctIdxInvalid ⟨"Q1", ["A", "B"], some 0, some 1⟩ = false from by decide]
  have h := empty_module_ids_rejected "quiz1" "Quiz" 1 60 "2024-01-01T09:00:00Z"
    "2024-01-01T10:00:00Z" [⟨"Q1", ["A", "B"], some 0, some 1⟩] "sess" ""
    ⟨false, [VError.moduleIdRequired]⟩ hval
  exact h

theorem mem_ite_singleton {c : Prop} [Decidable c] {x e : VError}
    (h : e ∈ (if c then [x] else [])) : e = x := by
  split at h
  · simpa using h
  · simp at h

theorem questionErrors_no_sum (idx : Nat) (q : Question) :
    ∀ e ∈ questionErrors idx q, isSumMismatch e = false := by
  intro e he
  unfold questionErrors at he
  simp only [List.mem_append] at he
  rcases he with ((h | h) | h) | h
  · rw [mem_ite_singleton h]
    rfl
  · rw [mem_ite_singleton h]
    rfl
  · rw [mem_ite_singleton h]
    rfl
  · rw [mem_ite_singleton h]
    rfl

theorem perQuestionErrors_no_sum (qs : List Question) (idx : Nat) :
    ∀ e ∈ perQuestionErrors idx qs, isSumMismatch e = false := by
  induction qs generalizing idx with
  | nil => simp [perQuestionErrors]
  | cons q t ih =>
    intro e he
    unfold perQuestionErrors at he
    rcases List.mem_append.mp he with h | h
    · exact questionErrors_no_sum idx q e h
    · exact ih (idx + 1) e h

theorem dateErrors_no_sum (s e : String) (dErrs : List VError)
    (h : dateErrors s e = some dErrs) : ∀ x ∈ dErrs, isSumMismatch x = false := by
  intro x hx
  unfold dateErrors at h
  rcases h1 : fromisoformat (pyReplaceZ s) with em | dts
  · rw [h1] at h
    cases Option.some.inj h
    simp only [List.mem_singleton] at hx
    subst hx
    rfl
  · rw [h1] at h
    dsimp only at h
    rcases h2 : fromisoformat (pyReplaceZ e) with em | dte
    · rw [h2] at h
      cases Option.some.inj h
      simp only [List.mem_singleton] at hx
      subst hx
      rfl
    · rw [h2] at h
      dsimp only at h
      rcases h3 : pyDatetimeGE dts dte with _ | b
      · rw [h3] at h
        exact Option.noConfusion h
      · rw [h3] at h
        cases Option.some.inj h
        cases b
        · exact absurd hx (by simp)
        · have hxe : x = VError.startNotBeforeEnd := by simpa using hx
          subst hxe
          rfl

theorem countP_ite_singleton {c : Prop} [Decidable c] {x : VError}
    (hx : isSumMismatch x = false) :
    ((if c then [x] else []) : List VError).countP isSumMismatch = 0 := by
  split
  · simp [List.countP_cons, hx]
  · simp

theorem countP_zero_of_all {l : List VError}
    (h : ∀ e ∈ l, isSumMismatch e = false) : l.countP isSumMismatch = 0 := by
  induction l with
  | nil => simp
  | cons a t ih =>
    rw [List.countP_cons]
    rw [h a (by simp), ih (fun e he => h e (by simp [he]))]
    simp

/-- The non-sum part of `validateErrorList` never contributes a
`sumMismatch` error; the sum check contributes exactly one when it fires
and none otherwise. -/
theorem validateErrorList_countP (title : String) (total_marks : ℚ)
    (duration_minutes : Int) (dErrs : List VError) (questions : List Question)
    (module_ids : List String) (hdok : ∀ x ∈ dErrs, isSumMismatch x = false)
    (hq : questions ≠ []) :
    (validateErrorList title total_marks duration_minutes dErrs questions
        module_ids).countP isSumMismatch =
      (if |totalPoints questions - total_marks| > 1 / 100 then 1 else 0) := by
  unfold validateErrorList questionsErrors
  rw [if_neg hq]
  simp only [List.countP_append]
  rw [countP_ite_singleton (x := VError.titleEmpty) rfl,
    countP_ite_singleton (x := VError.totalMarksNotPositive) rfl,
    countP_ite_singleton (x := VError.durationNotPositive) rfl,
    countP_zero_of_all hdok, countP_zero_of_all (perQuestionErrors_no_sum questions 0),
    countP_ite_singleton (x := VError.moduleIdRequired) rfl]
  split
  · simp [List.countP_cons, isSumMismatch]
  · simp

/-! ## Claim C4 -/

/-- Claim C4: for every quiz input with a non-empty question list (and on
which validation returns, i.e. the date comparison does not raise), if
the accumulated point total differs from `totalMarks` by more than 0.01
then the result carries exactly one sum-mismatch error — the error
naming both the accumulated total and `totalMarks`
(`sumMismatch (totalPoints questions) total_marks`) — and `valid = false`;
if the absolute difference is at most 0.01, no such error is produced. -/
theorem sum_mismatch_rule (title : String) (total_marks : ℚ)
    (duration_minutes : Int) (start_at end_at : String)
    (questions : List Question) (module_ids : List String)
    (v : ValidationResult) (hq : questions ≠ [])
    (hv : validate_quiz_parameters title total_marks duration_minutes start_at end_at
      questions module_ids = some v) :
    (|totalPoints questions - total_marks| > 1 / 100 →
      v.errors.countP isSumMismatch = 1 ∧
      VError.sumMismatch (totalPoints questions) total_marks ∈ v.errors ∧
      v.valid = false) ∧
    (|totalPoints questions - total_marks| ≤ 1 / 100 →
      v.errors.countP isSumMismatch = 0) := by
  unfold validate_quiz_parameters at hv
  rcases hdm : dateErrors start_at end_at with _ | dErrs
  · rw [hdm] at hv
    exact Option.noConfusion hv
  · rw [hdm] at hv
    dsimp only at hv
    obtain ⟨vvalid, verrors⟩ := v
    injection Option.some.inj hv with h3 h2
    subst h2
    subst h3
    have hcount := validateErrorList_countP title total_marks duration_minutes dErrs
      questions module_ids (dateErrors_no_sum _ _ _ hdm) hq
    constructor
    · intro hgt
      have hmem : VError.sumMismatch (totalPoints questions) total_marks ∈
          validateErrorList title total_marks duration_minutes dErrs questions
            module_ids := by
        unfold validateErrorList questionsErrors
        rw [if_neg hq, if_pos hgt]
        simp [List.mem_append]
      refine ⟨?_, hmem, isEmpty_false_of_ne_nil (List.ne_nil_of_mem hmem)⟩
      rw [hcount, if_pos hgt]
    · intro hle
      rw [hcount, if_neg (by simpa using hle)]

/-- Witness for C4 at the spec's example: `totalMarks = 10` with a single
question worth 9.5 points yields exactly one mismatch error, rendered
with both 9.5 and 10, and `valid = false`. -/
theorem sum_mismatch_rule_witness :
    ∃ v, validate_quiz_parameters "Quiz" 10 60 "2024-01-01T09:00:00Z"
        "2024-01-01T10:00:00Z"
        [⟨"Q1", ["A", "B", "C", "D"], some 0, some (19 / 2)⟩] ["m1"] = some v ∧
      v.errors.countP isSumMismatch = 1 ∧
      VError.sumMismatch (19 / 2) 10 ∈ v.errors ∧
      v.valid = false ∧
      render (VError.sumMismatch (19 / 2) 10) =
        "Sum of question points (9.5) doesn't match totalMarks (10)" := by
  have hval : validate_quiz_parameters "Quiz" 10 60 "2024-01-01T09:00:00Z"
      "2024-01-01T10:00:00Z"
      [⟨"Q1", ["A", "B", "C", "D"], some 0, some (19 / 2)⟩] ["m1"] =
      some ⟨false, [.sumMismatch (19 / 2) 10]⟩ := by
    have hd : dateErrors "2024-01-01T09:00:00Z" "2024-01-01T10:00:00Z" = some [] := by
      decide
    unfold validate_quiz_parameters
    rw [hd]
    norm_num [validateErrorList, questionsErrors, perQuestionErrors, questionErrors,
      totalPoints, questionPoint, show pyStrip "Quiz" ≠ "" from by decide,
      show pyStrip "Q1" ≠ "" from by decide,
      show |(1 : ℚ) / 2| = 1 / 2 from abs_of_pos (by norm_num),
      show correctIdxInvalid ⟨"Q1", ["A", "B", "C", "D"], some 0, some (19 / 2)⟩ = false
        from by decide]
  have htp : totalPoints [⟨"Q1", ["A", "B", "C", "D"], some 0, some (19 / 2)⟩]
      = 19 / 2 := by
    norm_num [totalPoints, questionPoint]
  have h := (sum_mismatch_rule "Quiz" 10 60 "2024-01-01T09:00:00Z"
    "2024-01-01T10:00:00Z" [⟨"Q1", ["A", "B", "C", "D"], some 0, some (19 / 2)⟩]
    ["m1"] ⟨false, [.sumMismatch (19 / 2) 10]⟩ (by simp) hval).1
    (by
      rw [htp]
      norm_num [show |(1 : ℚ) / 2| = 1 / 2 from abs_of_pos (by norm_num)])
  rw [htp] at h
  refine ⟨⟨false, [.sumMismatch (19 / 2) 10]⟩, hval, h.1, h.2.1, h.2.2, ?_⟩
  norm_num [render, ratRepr, show pow10Exp 2 = some 1 from by decide]
  decide

theorem perQuestionErrors_point_mem (qs : List Question) (idx i : Nat) (q : Question)
    (hq : qs.get? i = some q) (hneg : questionPoint q ≤ 0) :
    VError.pointNotPositive (idx + i + 1) ∈ perQuestionErrors idx qs := by
  induction qs generalizing idx i with
  | nil => simp at hq
  | cons a t ih =>
    cases i with
    | zero =>
      have ha := Option.some.inj hq
      subst ha
      unfold perQuestionErrors
      apply List.mem_append_left
      unfold questionErrors
      apply List.mem_append_right
      rw [if_pos hneg]
      simp
    | succ j =>
      have hq2 : t.get? j = some q := hq
      unfold perQuestionErrors
      apply List.mem_append_right
      rw [show idx + (j + 1) + 1 = idx + 1 + j + 1 from by omega]
      exact ih (idx + 1) j hq2

/-! ## Claim C6 -/

/-- Claim C6 (amended): for every question whose point (defaulted to 1)
is not positive, an error is produced, the result is invalid — and the
point IS still accumulated into the running total: the accumulation at
`src/server.py` line 191 is unconditional (there is no `else` on the
positivity check), so the total compared against `totalMarks` is
`totalPoints questions`, the sum of *every* question's point including
the non-positive ones, and the sum-mismatch error appears exactly when
that all-inclusive total misses `totalMarks` by more than 0.01.  (The
unamended claim — non-positive points are excluded from the total — is
refuted by `point_accumulated_counterexample`.) -/
theorem point_accumulated (title : String) (total_marks : ℚ)
    (duration_minutes : Int) (start_at end_at : String)
    (questions : List Question) (module_ids : List String)
    (v : ValidationResult) (i : Nat) (q : Question)
    (hv : validate_quiz_parameters title total_marks duration_minutes start_at end_at
      questions module_ids = some v)
    (hq : questions.get? i = some q) (hneg : questionPoint q ≤ 0) :
    VError.pointNotPositive (i + 1) ∈ v.errors ∧ v.valid = false ∧
    (VError.sumMismatch (totalPoints questions) total_marks ∈ v.errors ↔
      |totalPoints questions - total_marks| > 1 / 100) := by
  have hqne : questions ≠ [] := by
    intro e
    subst e
    simp at hq
  unfold validate_quiz_parameters at hv
  rcases hdm : dateErrors start_at end_at with _ | dErrs
  · rw [hdm] at hv
    exact Option.noConfusion hv
  · rw [hdm] at hv
    dsimp only at hv
    obtain ⟨vvalid, verrors⟩ := v
    injection Option.some.inj hv with h3 h2
    subst h2
    subst h3
    have hm0 := perQuestionErrors_point_mem questions 0 i q hq hneg
    rw [Nat.zero_add] at hm0
    have hmem : VError.pointNotPositive (i + 1) ∈
        validateErrorList title total_marks duration_minutes dErrs questions
          module_ids := by
      unfold validateErrorList questionsErrors
      rw [if_neg hqne]
      exact List.mem_append_left _ (List.mem_append_right _
        (List.mem_append_left _ hm0))
    refine ⟨hmem, isEmpty_false_of_ne_nil (List.ne_nil_of_mem hmem), ?_, ?_⟩
    · intro hsum
      by_contra hnot
      have h0 := validateErrorList_countP title total_marks duration_minutes dErrs
        questions module_ids (dateErrors_no_sum _ _ _ hdm) hqne
      rw [if_neg hnot] at h0
      exact List.countP_eq_zero.mp h0 _ hsum rfl
    · intro hgt
      unfold validateErrorList questionsErrors
      rw [if_neg hqne, if_pos hgt]
      simp [List.mem_append]

/-- Counterexample to C6 as stated: `totalMarks = 10` with points
`[15, -5]`.  The code flags the non-positive point but still adds it:
the accumulated total is `15 + (-5) = 10`, matching `totalMarks`, so *no*
sum-mismatch error appears — the only error is the point error.  Under
the claim (only points passing the positivity check accumulated) the
total would be 15 and a mismatch error naming 15 and 10 would be
produced. -/
theorem point_accumulated_counterexample :
    validate_quiz_parameters "Quiz" 10 60 "2024-01-01T09:00:00Z"
        "2024-01-01T10:00:00Z"
        [⟨"Q1", ["A", "B"], some 0, some 15⟩, ⟨"Q2", ["A", "B"], some 0, some (-5)⟩]
        ["m1"] = some ⟨false, [.pointNotPositive 2]⟩ := by
  have hd : dateErrors "2024-01-01T09:00:00Z" "2024-01-01T10:00:00Z" = some [] := by
    decide
  unfold validate_quiz_parameters
  rw [hd]
  norm_num [validateErrorList, questionsErrors, perQuestionErrors, questionErrors,
    totalPoints, questionPoint, show pyStrip "Quiz" ≠ "" from by decide,
    show pyStrip "Q1" ≠ "" from by decide, show pyStrip "Q2" ≠ "" from by decide,
    show ([⟨"Q1", ["A", "B"], some 0, some 15⟩,
      ⟨"Q2", ["A", "B"], some 0, some (-5)⟩] : List Question) ≠ [] from by decide,
    show correctIdxInvalid ⟨"Q1", ["A", "B"], some 0, some 15⟩ = false from by decide,
    show correctIdxInvalid ⟨"Q2", ["A", "B"], some 0, some (-5)⟩ = false from by decide]

/-- Witness for C6 (amended) at the `[15, -5]` input: the point error is
present, the result is invalid, and — because the non-positive point was
accumulated — the sum-mismatch membership is equivalent to the
all-inclusive total missing `totalMarks`, which here it does not. -/
theorem point_accumulated_witness :
    ∃ v, validate_quiz_parameters "Quiz" 10 60 "2024-01-01T09:00:00Z"
        "2024-01-01T10:00:00Z"
        [⟨"Q1", ["A", "B"], some 0, some 15⟩, ⟨"Q2", ["A", "B"], some 0, some (-5)⟩]
        ["m1"] = some v ∧
      VError.pointNotPositive 2 ∈ v.errors ∧ v.valid = false ∧
      (VError.sumMismatch
          (totalPoints [⟨"Q1", ["A", "B"], some 0, some 15⟩,
            ⟨"Q2", ["A", "B"], some 0, some (-5)⟩]) 10 ∈ v.errors ↔
        |totalPoints [⟨"Q1", ["A", "B"], some 0, some 15⟩,
            ⟨"Q2", ["A", "B"], some 0, some (-5)⟩] - 10| > 1 / 100) := by
  have hval : validate_quiz_parameters "Quiz" 10 60 "2024-01-01T09:00:00Z"
      "2024-01-01T10:00:00Z"
      [⟨"Q1", ["A", "B"], some 0, some 15⟩, ⟨"Q2", ["A", "B"], some 0, some (-5)⟩]
      ["m1"] = some ⟨false, [.pointNotPositive 2]⟩ := by
    have hd : dateErrors "2024-01-01T09:00:00Z" "2024-01-01T10:00:00Z" = some [] := by
      decide
    unfold validate_quiz_parameters
    rw [hd]
    norm_num [validateErrorList, questionsErrors, perQuestionErrors, questionErrors,
      totalPoints, questionPoint, show pyStrip "Quiz" ≠ "" from by decide,
      show pyStrip "Q1" ≠ "" from by decide, show pyStrip "Q2" ≠ "" from by decide,
      show ([⟨"Q1", ["A", "B"], some 0, some 15⟩,
        ⟨"Q2", ["A", "B"], some 0, some (-5)⟩] : List Question) ≠ [] from by decide,
      show correctIdxInvalid ⟨"Q1", ["A", "B"], some 0, some 15⟩ = false from by decide,
      show correctIdxInvalid ⟨"Q2", ["A", "B"], some 0, some (-5)⟩ = false from by decide]
  exact ⟨⟨false, [.pointNotPositive 2]⟩, hval,
    point_accumulated "Quiz" 10 60 "2024-01-01T09:00:00Z" "2024-01-01T10:00:00Z"
      [⟨"Q1", ["A", "B"], some 0, some 15⟩, ⟨"Q2", ["A", "B"], some 0, some (-5)⟩]
      ["m1"] ⟨false, [.pointNotPositive 2]⟩ 1 ⟨"Q2", ["A", "B"], some 0, some (-5)⟩
      hval rfl (by norm_num [questionPoint])⟩

theorem questionErrors_eq_nil (idx : Nat) (q : Question)
    (h1 : ¬ pyStrip q.text = "") (h2 : ¬ q.options.length < 2)
    (h3 : correctIdxInvalid q = false) (h4 : ¬ questionPoint q ≤ 0) :
    questionErrors idx q = [] := by
  unfold questionErrors
  rw [if_neg h1, if_neg h2, if_neg (by simp [h3]), if_neg h4]
  rfl

theorem perQuestionErrors_eq_nil (qs : List Question) (idx : Nat)
    (h : ∀ q ∈ qs, ¬ pyStrip q.text = "" ∧ ¬ q.options.length < 2 ∧
      correctIdxInvalid q = false ∧ ¬ questionPoint q ≤ 0) :
    perQuestionErrors idx qs = [] := by
  induction qs generalizing idx with
  | nil => rfl
  | cons q t ih =>
    obtain ⟨h1, h2, h3, h4⟩ := h q (by simp)
    unfold perQuestionErrors
    rw [questionErrors_eq_nil idx q h1 h2 h3 h4, ih (idx + 1) (fun x hx => h x (by simp [hx]))]
    rfl

/-- When every check `validate_quiz_parameters` actually performs passes,
the result is `valid = true` with an empty error list. -/
theorem validate_all_pass (title : String) (total_marks : ℚ)
    (duration_minutes : Int) (start_at end_at : String)
    (questions : List Question) (module_ids : List String)
    (ht : pyStrip title ≠ "") (hm : 0 < total_marks) (hd : 0 < duration_minutes)
    (hdate : dateErrors start_at end_at = some []) (hq : questions ≠ [])
    (hqs : ∀ q ∈ questions, pyStrip q.text ≠ "" ∧ 2 ≤ q.options.length ∧
      correctIdxInvalid q = false ∧ 0 < questionPoint q)
    (hsum : |totalPoints questions - total_marks| ≤ 1 / 100)
    (hmods : module_ids ≠ []) :
    validate_quiz_parameters title total_marks duration_minutes start_at end_at
      questions module_ids = some ⟨true, []⟩ := by
  unfold validate_quiz_parameters
  rw [hdate]
  dsimp only
  have hE : validateErrorList title total_marks duration_minutes [] questions
      module_ids = [] := by
    unfold validateErrorList questionsErrors
    rw [if_neg ht, if_neg (not_le.mpr hm), if_neg (not_le.mpr hd), if_neg hq,
      if_neg (not_lt.mpr hsum), if_neg hmods,
      perQuestionErrors_eq_nil questions 0 (fun q hq2 => by
        obtain ⟨a, b, c, d⟩ := hqs q hq2
        exact ⟨a, not_lt.mpr b, c, not_le.mpr d⟩)]
    rfl
  rw [hE]
  rfl

/-! ## Claim C3 -/

/-- Claim C3 (amended): `validate_quiz_parameters` performs no
duplicate-text check at all.  For every quiz input whose question list
contains two questions with identical text at distinct positions, with
every check the function actually performs satisfied, the result is
`valid = true` with an *empty* error list — in particular no
duplicate-text error is produced and the duplicate-text hypothesis is
irrelevant to the outcome.  (The unamended claim — exactly one
duplicate-text error on the second occurrence and `valid = false` — is
refuted by `duplicate_text_counterexample`.) -/
theorem duplicate_text_not_checked (title : String) (total_marks : ℚ)
    (duration_minutes : Int) (start_at end_at : String)
    (questions : List Question) (module_ids : List String)
    (hdup : ∃ i j qi qj, i < j ∧ questions.get? i = some qi ∧
      questions.get? j = some qj ∧ qi.text = qj.text)
    (ht : pyStrip title ≠ "") (hm : 0 < total_marks) (hd : 0 < duration_minutes)
    (hdate : dateErrors start_at end_at = some []) (hq : questions ≠ [])
    (hqs : ∀ q ∈ questions, pyStrip q.text ≠ "" ∧ 2 ≤ q.options.length ∧
      correctIdxInvalid q = false ∧ 0 < questionPoint q)
    (hsum : |totalPoints questions - total_marks| ≤ 1 / 100)
    (hmods : module_ids ≠ []) :
    validate_quiz_parameters title total_marks duration_minutes start_at end_at
      questions module_ids = some ⟨true, []⟩ :=
  validate_all_pass title total_marks duration_minutes start_at end_at questions
    module_ids ht hm hd hdate hq hqs hsum hmods

/-- Counterexample to C3 as stated: two questions with identical text
(all other fields valid) produce *no* error at all — the result is
`valid = true` with an empty error list (the returned dict has only the
`valid` and `errors` keys), not exactly one duplicate-text error with
`valid = false`. -/
theorem duplicate_text_counterexample :
    validate_quiz_parameters "Quiz" 2 60 "2024-01-01T09:00:00Z"
        "2024-01-01T10:00:00Z"
        [⟨"Same question", ["A", "B", "C", "D"], some 0, some 1⟩,
         ⟨"Same question", ["A", "B", "C", "D"], some 1, some 1⟩]
        ["m1"] = some ⟨true, []⟩ := by
  have hd : dateErrors "2024-01-01T09:00:00Z" "2024-01-01T10:00:00Z" = some [] := by
    decide
  unfold validate_quiz_parameters
  rw [hd]
  norm_num [validateErrorList, questionsErrors, perQuestionErrors, questionErrors,
    totalPoints, questionPoint, show pyStrip "Quiz" ≠ "" from by decide,
    show pyStrip "Same question" ≠ "" from by decide,
    show ([⟨"Same question", ["A", "B", "C", "D"], some 0, some 1⟩,
      ⟨"Same question", ["A", "B", "C", "D"], some 1, some 1⟩] : List Question) ≠ []
      from by decide,
    show correctIdxInvalid ⟨"Same question", ["A", "B", "C", "D"], some 0, some 1⟩ = false
      from by decide,
    show correctIdxInvalid ⟨"Same question", ["A", "B", "C", "D"], some 1, some 1⟩ = false
      from by decide]

/-- Witness for C3 (amended): a concrete draft whose two questions share
their text and which passes every performed check validates cleanly. -/
theorem duplicate_text_not_checked_witness :
    validate_quiz_parameters "Weekly quiz" 4 30 "2024-03-01T09:00:00Z"
        "2024-03-02T09:00:00Z"
        [⟨"Twin question", ["Yes", "No"], some 0, some 2⟩,
         ⟨"Twin question", ["Yes", "No"], some 1, some 2⟩]
        ["mod1", "mod2"] = some ⟨true, []⟩ := by
  refine duplicate_text_not_checked "Weekly quiz" 4 30 "2024-03-01T09:00:00Z"
    "2024-03-02T09:00:00Z"
    [⟨"Twin question", ["Yes", "No"], some 0, some 2⟩,
     ⟨"Twin question", ["Yes", "No"], some 1, some 2⟩]
    ["mod1", "mod2"]
    ⟨0, 1, ⟨"Twin question", ["Yes", "No"], some 0, some 2⟩,
      ⟨"Twin question", ["Yes", "No"], some 1, some 2⟩, by omega, rfl, rfl, rfl⟩
    (by decide) (by norm_num) (by norm_num) (by decide) (by decide) ?_ ?_ (by decide)
  · intro q hq
    simp only [List.mem_cons, List.not_mem_nil, or_false] at hq
    rcases hq with rfl | rfl
    · exact ⟨by decide, by decide, by decide, by norm_num [questionPoint]⟩
    · exact ⟨by decide, by decide, by decide, by norm_num [questionPoint]⟩
  · norm_num [totalPoints, questionPoint]

/-! ## Claim C5 -/

/-- Claim C5 (amended): a question whose options list has 2 or 3 entries
is accepted without any error — with every performed check satisfied the
result is `valid = true` with an empty error list.  The validator
computes no warnings whatever: its result dict has exactly the keys
`valid` and `errors` (the `ValidationResult` record of this embedding),
so no warning is attached to the short-options question.  (The unamended
claim — the result's warnings sequence contains a warning for that
question — is refuted by `few_options_counterexample`: the result is
exactly `{valid := true, errors := []}`.) -/
theorem few_options_no_warning (title : String) (total_marks : ℚ)
    (duration_minutes : Int) (start_at end_at : String)
    (questions : List Question) (module_ids : List String)
    (hfew : ∃ q ∈ questions, q.options.length = 2 ∨ q.options.length = 3)
    (ht : pyStrip title ≠ "") (hm : 0 < total_marks) (hd : 0 < duration_minutes)
    (hdate : dateErrors start_at end_at = some []) (hq : questions ≠ [])
    (hqs : ∀ q ∈ questions, pyStrip q.text ≠ "" ∧ 2 ≤ q.options.length ∧
      correctIdxInvalid q = false ∧ 0 < questionPoint q)
    (hsum : |totalPoints questions - total_marks| ≤ 1 / 100)
    (hmods : module_ids ≠ []) :
    validate_quiz_parameters title total_marks duration_minutes start_at end_at
      questions module_ids = some ⟨true, []⟩ :=
  validate_all_pass title total_marks duration_minutes start_at end_at questions
    module_ids ht hm hd hdate hq hqs hsum hmods

/-- Counterexample to C5 as stated: a quiz whose only notable feature is
a 2-option question validates to exactly `{valid := true, errors := []}` —
the validator's result carries no warnings sequence at all (the Python
function returns a dict with only the `valid` and `errors` keys), so no
warning for the question exists. -/
theorem few_options_counterexample :
    validate_quiz_parameters "Quiz" 1 60 "2024-01-01T09:00:00Z"
        "2024-01-01T10:00:00Z" [⟨"Q1", ["A", "B"], some 0, some 1⟩] ["m1"] =
      some ⟨true, []⟩ := by
  have hd : dateErrors "2024-01-01T09:00:00Z" "2024-01-01T10:00:00Z" = some [] := by
    decide
  unfold validate_quiz_parameters
  rw [hd]
  norm_num [validateErrorList, questionsErrors, perQuestionErrors, questionErrors,
    totalPoints, questionPoint, show pyStrip "Quiz" ≠ "" from by decide,
    show pyStrip "Q1" ≠ "" from by decide,
    show correctIdxInvalid ⟨"Q1", ["A", "B"], some 0, some 1⟩ = false from by decide]

/-- Witness for C5 (amended) at a concrete draft with a 3-option
question. -/
theorem few_options_no_warning_witness :
    validate_quiz_parameters "Pop quiz" 5 15 "2024-05-01T09:00:00Z"
        "2024-05-01T10:00:00Z"
        [⟨"Pick one", ["A", "B", "C"], some 2, some 5⟩] ["m9"] =
      some ⟨true, []⟩ := by
  refine few_options_no_warning "Pop quiz" 5 15 "2024-05-01T09:00:00Z"
    "2024-05-01T10:00:00Z" [⟨"Pick one", ["A", "B", "C"], some 2, some 5⟩] ["m9"]
    ⟨⟨"Pick one", ["A", "B", "C"], some 2, some 5⟩, by simp, Or.inr (by decide)⟩
    (by decide) (by norm_num) (by norm_num) (by decide) (by decide) ?_ ?_ (by decide)
  · intro q hq
    simp only [List.mem_cons, List.not_mem_nil, or_false] at hq
    subst hq
    exact ⟨by decide, by decide, by decide, by norm_num [questionPoint]⟩
  · norm_num [totalPoints, questionPoint]

/-! ## Claim C8 -/

/-- Claim C8: for every fetched byte payload, `read_content_file_from_URL`
never propagates a PDF-extraction failure.  On the storage path (a parsed
bucket/key pair with Python-truthy components): the call always returns a
string, whatever the extractor does; and whenever the extractor raises or
yields the empty string, the call falls through to the plain text decode
and returns `decodeOrReplace` of the payload.  For any byte list that is
not valid UTF-8, that decode uses replacement-character substitution
(`utf8DecodeReplace`, a total function) instead of raising.  The same
fall-through holds on the generic-HTTP branch for any response whose
status passes `raise_for_status`. -/
theorem read_content_never_fails (file_url : String) (storageBytes : List Nat)
    (resp : HttpGetResponse) (extract : List Nat → Except String String)
    (bucket key : String)
    (hparse : parse_storage_url file_url = .ok (some (bucket, key)))
    (hb : bucket ≠ "") (hk : key ≠ "") :
    (∃ s, read_content_file_from_URL file_url storageBytes resp extract = .ok s) ∧
    (((∃ e, extract storageBytes = .error e) ∨ extract storageBytes = .ok "") →
      read_content_file_from_URL file_url storageBytes resp extract =
        .ok (decodeOrReplace storageBytes)) ∧
    (∀ bytes : List Nat, utf8DecodeStrict bytes = none →
      decodeOrReplace bytes = utf8DecodeReplace bytes) ∧
    (∀ resp2 : HttpGetResponse, ¬ (400 ≤ resp2.status ∧ resp2.status < 600) →
      (((∃ e, extract resp2.content = .error e) ∨ extract resp2.content = .ok "") →
        readHttpBranch file_url resp2 extract = .ok (decodeOrReplace resp2.content)) ∧
      ∃ s, readHttpBranch file_url resp2 extract = .ok s) := by
  have hread : read_content_file_from_URL file_url storageBytes resp extract =
      .ok (readStorageBranch file_url storageBytes extract) := by
    unfold read_content_file_from_URL
    rw [hparse]
    dsimp only
    rw [if_pos ⟨hb, hk⟩]
  have hstorage : ((∃ e, extract storageBytes = .error e) ∨
      extract storageBytes = .ok "") →
      readStorageBranch file_url storageBytes extract = decodeOrReplace storageBytes := by
    intro hfail
    unfold readStorageBranch
    by_cases hroute : (_is_pdf_bytes storageBytes
        || pyEndsWith (pyLower file_url) ".pdf") = true
    · rw [if_pos hroute]
      rcases hfail with ⟨e, he⟩ | he
      · rw [he]
      · rw [he]
        simp
    · rw [if_neg hroute]
  refine ⟨⟨readStorageBranch file_url storageBytes extract, hread⟩, ?_, ?_, ?_⟩
  · intro hfail
    rw [hread, hstorage hfail]
  · intro bytes hnone
    unfold decodeOrReplace
    rw [hnone]
  · intro resp2 hstatus
    have hhttp : ∀ s : String,
        ((if pyStartsWith (pyLower resp2.contentType) "application/pdf"
            || pyEndsWith (pyLower file_url) ".pdf" || _is_pdf_bytes resp2.content then
          match extract resp2.content with
          | .ok text => .ok (if text ≠ "" then text else decodeOrReplace resp2.content)
          | .error _ => .ok (decodeOrReplace resp2.content)
        else .ok (decodeOrReplace resp2.content)) : Except String String) = Except.ok s →
        readHttpBranch file_url resp2 extract = .ok s := by
      intro s hs
      unfold readHttpBranch
      rw [if_neg hstatus]
      exact hs
    constructor
    · intro hfail
      apply hhttp
      by_cases hroute : (pyStartsWith (pyLower resp2.contentType) "application/pdf"
          || pyEndsWith (pyLower file_url) ".pdf" || _is_pdf_bytes resp2.content) = true
      · rw [if_pos hroute]
        rcases hfail with ⟨e, he⟩ | he
        · rw [he]
        · rw [he]
          simp
      · rw [if_neg hroute]
    · by_cases hroute : (pyStartsWith (pyLower resp2.contentType) "application/pdf"
          || pyEndsWith (pyLower file_url) ".pdf" || _is_pdf_bytes resp2.content) = true
      · rcases hex : extract resp2.content with e | t
        · exact ⟨decodeOrReplace resp2.content, hhttp _ (by rw [if_pos hroute, hex])⟩
        · by_cases ht : t ≠ ""
          · exact ⟨t, hhttp _ (by
              rw [if_pos hroute, hex]
              dsimp only
              rw [if_pos ht])⟩
          · exact ⟨decodeOrReplace resp2.content, hhttp _ (by
              rw [if_pos hroute, hex]
              dsimp only
              rw [if_neg ht])⟩
      · exact ⟨decodeOrReplace resp2.content, hhttp _ (by rw [if_neg hroute])⟩

/-- Witness for C8: a stored payload with the `%PDF` signature followed
by an invalid UTF-8 byte, with an extractor that raises.  The call falls
through to decoding and returns the replacement-decoded string. -/
theorem read_content_never_fails_witness :
    (∃ s, read_content_file_from_URL "gs://bucket1/report.pdf"
      [0x25, 0x50, 0x44, 0x46, 0xFF] ⟨200, [], ""⟩
      (fun _ => .error "PyPDF2 failure") = .ok s) ∧
    read_content_file_from_URL "gs://bucket1/report.pdf"
      [0x25, 0x50, 0x44, 0x46, 0xFF] ⟨200, [], ""⟩
      (fun _ => .error "PyPDF2 failure") =
      .ok (decodeOrReplace [0x25, 0x50, 0x44, 0x46, 0xFF]) ∧
    decodeOrReplace [0x25, 0x50, 0x44, 0x46, 0xFF] =
      utf8DecodeReplace [0x25, 0x50, 0x44, 0x46, 0xFF] ∧
    utf8DecodeReplace [0x25, 0x50, 0x44, 0x46, 0xFF] =
      String.mk ['%', 'P', 'D', 'F', Char.ofNat 0xFFFD] := by
  have h := read_content_never_fails "gs://bucket1/report.pdf"
    [0x25, 0x50, 0x44, 0x46, 0xFF] ⟨200, [], ""⟩ (fun _ => .error "PyPDF2 failure")
    "bucket1" "report.pdf" (by decide) (by decide) (by decide)
  exact ⟨h.1, h.2.1 (Or.inl ⟨"PyPDF2 failure", rfl⟩),
    h.2.2.1 [0x25, 0x50, 0x44, 0x46, 0xFF] (by decide), by decide⟩

end Quizard
